import Mathlib

/-!
Verification of the ZvestServer loyalty-program core against its
specification.

The definitions below are a shallow embedding of the TypeScript request
handlers in src/controllers (qrCodeController.ts, loyaltyController.ts,
couponController.ts) and of the earlier revision of the scan handler kept
in the repository (the revision that dispatches on the business
loyalty_type).  The relational store is a record of row lists; every
Supabase statement (conditional update, filtered select with .single(),
insert) is one atomic Lean function on that record, mirroring the fact
that the store executes each statement atomically.  Request handlers are
state-passing functions returning an Except value for the HTTP outcome.
-/

/-- A JavaScript numeric request field: either an actual number or the
result of a failed numeric coercion (NaN). -/
inductive JNum where
  | nan : JNum
  | num : Int → JNum
deriving DecidableEq, Repr

/-- The isNaN check of the handlers. -/
def JNum.isNaN : JNum → Bool
  | .nan => true
  | .num _ => false

/-- The check rejecting an award amount: isNaN(amount) or amount <= 0
(NaN compares false, so only the isNaN branch catches it). -/
def JNum.invalidAmount : JNum → Bool
  | .nan => true
  | .num n => n ≤ 0

/-- JavaScript truthiness of an optional numeric field: undefined, NaN
and 0 are falsy. -/
def jnumFalsy : Option JNum → Bool
  | none => true
  | some .nan => true
  | some (.num n) => n == 0

/-- JavaScript truthiness of an optional string field: undefined and the
empty string are falsy. -/
def strFalsy : Option String → Bool
  | none => true
  | some s => s == ""

/-- An error response: HTTP status and message, the uniform error
envelope of the service. -/
structure Err where
  status : Nat
  msg : String
deriving DecidableEq, Repr

/-- An authenticated principal as returned by the identity provider:
role and business binding live in user_metadata. -/
structure AuthUser where
  id : String
  role : String
  business_id : Option String
deriving DecidableEq, Repr

/-- A row of the relational all_users table (the second identity source
used by couponController). -/
structure AllUserRow where
  user_id : String
  business_id : String
  role : String
deriving DecidableEq, Repr

/-- A qr_codes row: a single-use RedemptionCode. -/
structure QRCodeRow where
  id : Nat
  user_id : String
  qr_data : String
  used : Bool
  created_at : Nat
deriving DecidableEq, Repr

/-- A redeemed_coupons row: a customer claim against a coupon.  Both
consumption flags occurring across the controllers are present:
verified/verified_at (scan endpoint) and used/used_at (verify-coupon
endpoint). -/
structure RedeemedCouponRow where
  id : String
  coupon_id : String
  user_id : String
  business_id : String
  redeemed_at : Nat
  verified : Bool
  verified_at : Option Nat
  used : Bool
  used_at : Option Nat
deriving DecidableEq, Repr

/-- A coupons row: a business-defined reward definition. -/
structure CouponRow where
  id : String
  business_id : String
  name : String
  points_required : Int
  is_active : Bool
deriving DecidableEq, Repr

/-- A loyalty_points row keyed by (user, business): the aggregate point
balance read and decremented by verifyCoupon. -/
structure LoyaltyPointsRow where
  user_id : String
  business_id : String
  points : Int
deriving DecidableEq, Repr

/-- A staff_actions audit row; the optional fields condense the two
action_details shapes used by the award and verify paths. -/
structure StaffActionRow where
  staff_user_id : String
  action_type : String
  business_id : String
  points_awarded : Option Int
  recipient_user_id : Option String
  coupon_id : Option String
  coupon_name : Option String
  points_deducted : Option Int
deriving DecidableEq, Repr

/-- The relational store as seen by the current controllers. -/
structure DB where
  users : List AuthUser
  all_users : List AllUserRow
  qr_codes : List QRCodeRow
  redeemed_coupons : List RedeemedCouponRow
  coupons : List CouponRow
  loyalty_points : List LoyaltyPointsRow
  staff_actions : List StaffActionRow
deriving DecidableEq, Repr

/-- Decidable equality of request outcomes. -/
instance {e a : Type} [DecidableEq e] [DecidableEq a] :
    DecidableEq (Except e a) := fun x y =>
  match x, y with
  | .ok u, .ok v =>
    if h : u = v then .isTrue (by rw [h]) else .isFalse (by simp [h])
  | .error u, .error v =>
    if h : u = v then .isTrue (by rw [h]) else .isFalse (by simp [h])
  | .ok _, .error _ => .isFalse (by simp)
  | .error _, .ok _ => .isFalse (by simp)

/-- The .single() modifier: a value only when the filtered selection has
exactly one row. -/
def single? {α : Type} : List α → Option α
  | [x] => some x
  | _ => none

/-- Lookup of an authenticated user by id (supabaseAdmin getUserById). -/
def findUser (db : DB) (uid : String) : Option AuthUser :=
  db.users.find? (fun u => u.id == uid)

/-- Splitting a character list on the dash character, the semantics of
the JavaScript split on a one-character separator. -/
def splitDash : List Char → List (List Char)
  | [] => [[]]
  | c :: rest =>
    let r := splitDash rest
    if c = '-' then [] :: r
    else
      match r with
      | [] => [[c]]
      | g :: gs => (c :: g) :: gs

/-- The split of a string on dashes. -/
def splitOnDash (s : String) : List String :=
  (splitDash s.data).map (fun g => String.mk g)

/-- The join of string parts with dashes, the JavaScript join. -/
def joinDash : List String → String
  | [] => ""
  | [s] => s
  | s :: rest => s ++ "-" ++ joinDash rest

namespace Qr

/-- The latest unused qr_codes row of a user: filter on user and
used=false, order by created_at descending, limit 1. -/
def latestUnused (rows : List QRCodeRow) (uid : String) : Option QRCodeRow :=
  (rows.filter (fun r => r.user_id == uid && r.used == false)).foldl
    (fun acc r =>
      match acc with
      | none => some r
      | some a => if a.created_at < r.created_at then some r else some a)
    none

/-- The response body of GET /qr-code. -/
structure QRCodeResp where
  id : Nat
  data : String
  createdAt : Nat
deriving DecidableEq, Repr

/-- getQRCode from qrCodeController.ts: fetch the most recent unused code
of the authenticated Client, or mint one whose payload is the user id
joined to the current timestamp. -/
def getQRCode (authUser : Option String) (now : Nat) (newId : Nat)
    (db : DB) : Except Err QRCodeResp × DB :=
  match authUser with
  | none => (.error ⟨401, "Not authenticated"⟩, db)
  | some userId =>
    match findUser db userId with
    | none => (.error ⟨500, "Error fetching user data"⟩, db)
    | some user =>
      if user.role ≠ "Client" then
        (.error ⟨403, "Access denied. Only clients can access QR codes."⟩, db)
      else
        match latestUnused db.qr_codes userId with
        | some qrCode => (.ok ⟨qrCode.id, qrCode.qr_data, qrCode.created_at⟩, db)
        | none =>
          let row : QRCodeRow :=
            ⟨newId, userId, userId ++ "-" ++ toString now, false, now⟩
          (.ok ⟨row.id, row.qr_data, row.created_at⟩,
            { db with qr_codes := db.qr_codes ++ [row] })

/-- The atomic code claim of the scan handler: one conditional UPDATE
setting used=true filtered on exact payload match and used=false, with
the affected rows returned and fed to .single().  The store executes it
as a single statement. -/
def claimQrCode (db : DB) (d : String) : Option QRCodeRow × DB :=
  let hit := fun (r : QRCodeRow) => r.qr_data == d && r.used == false
  let affected := (db.qr_codes.filter hit).map (fun r => { r with used := true })
  (single? affected,
    { db with qr_codes :=
        db.qr_codes.map (fun r => if hit r then { r with used := true } else r) })

end Qr

namespace Loyalty

/-- The user id extraction of awardLoyaltyPoints: the code payload split
on dashes, the first five parts rejoined. -/
def extractUserId (d : String) : String :=
  joinDash ((splitOnDash d).take 5)

/-- The success body of the award operation: amount awarded and the new
total balance. -/
structure AwardResp where
  awarded : Int
  total_points : Int
deriving DecidableEq, Repr

/-- Modelled from the spec: the stored procedure award_loyalty_points
lives in the database and is absent from the repository (only its
callers are present).  Per spec 4.2 step 3 it applies the positive delta
to the aggregate PointBalance of (user, business) as a single atomic
upsert: insert a row holding the amount when none exists, otherwise
increment, and return the new total.  The aggregate balance row is the
loyalty_points (user, business) row that verifyCoupon reads. -/
def award_loyalty_points (db : DB) (p_user_id : String)
    (p_business_id : String) (p_points : Int) : Int × DB :=
  match db.loyalty_points.find?
      (fun r => r.user_id == p_user_id && r.business_id == p_business_id) with
  | some r =>
    let total := r.points + p_points
    (total,
      { db with loyalty_points :=
          db.loyalty_points.map (fun x =>
            if x.user_id == p_user_id && x.business_id == p_business_id then
              { x with points := total }
            else x) })
  | none =>
    (p_points,
      { db with loyalty_points :=
          db.loyalty_points ++ [⟨p_user_id, p_business_id, p_points⟩] })

/-- awardLoyaltyPoints from loyaltyController.ts: checks principal and
input, resolves the owning user from the payload, applies the balance
delta through the stored procedure, then appends a best-effort
staff_actions record whose outcome (logOk) is never inspected. -/
def awardLoyaltyPoints (authUser : Option String) (qrCodeData : Option String)
    (amount : Option JNum) (logOk : Bool) (db : DB) :
    Except Err AwardResp × DB :=
  match authUser with
  | none => (.error ⟨401, "Not authenticated"⟩, db)
  | some staffUserId =>
    match findUser db staffUserId with
    | none => (.error ⟨500, "Error fetching user data"⟩, db)
    | some staffUser =>
      if ¬(staffUser.role == "Staff" || staffUser.role == "Owner") then
        (.error ⟨403,
          "Access denied. Only staff members and owners can award points."⟩, db)
      else if strFalsy qrCodeData || jnumFalsy amount ||
          (match amount with
           | some a => a.isNaN || a.invalidAmount
           | none => true) then
        (.error ⟨400,
          "Invalid input. Please provide valid QR code data and amount."⟩, db)
      else
        match qrCodeData, amount with
        | some d, some (.num n) =>
          let userId := extractUserId d
          match findUser db userId with
          | none => (.error ⟨400, "Invalid or non-existent user."⟩, db)
          | some _ =>
            match staffUser.business_id with
            | none => (.error ⟨500, "Error awarding loyalty points"⟩, db)
            | some bid =>
              let rpcResult := award_loyalty_points db userId bid n
              let db2 :=
                if logOk then
                  { rpcResult.2 with staff_actions :=
                      rpcResult.2.staff_actions ++
                        [⟨staffUserId, "AWARD_POINTS", bid, some n,
                          some userId, none, none, none⟩] }
                else rpcResult.2
              (.ok ⟨n, rpcResult.1⟩, db2)
        | _, _ => (.error ⟨400,
            "Invalid input. Please provide valid QR code data and amount."⟩, db)

end Loyalty

namespace Qr

/-- The success body of POST /scan: either the award response forwarded
from awardLoyaltyPoints or the coupon-verified confirmation. -/
inductive HandleResp where
  | award : Loyalty.AwardResp → HandleResp
  | couponVerified : String → HandleResp
deriving DecidableEq, Repr

/-- The verification mutation the scan handler performs: UPDATE
redeemed_coupons SET verified=true, verified_at=now filtered on the id
alone; the affected-row count is not read. -/
def markVerified (db : DB) (d : String) (now : Nat) : DB :=
  { db with redeemed_coupons :=
      db.redeemed_coupons.map (fun r =>
        if r.id == d then
          { r with verified := true, verified_at := some now }
        else r) }

/-- Modelled from the spec: the verification mutation the specification
describes, an UPDATE setting verified=true, verified_at=now filtered on
both the id and verified=false, whose affected-row count is the success
signal (zero affected rows meaning rejection).  Stated only to be
compared with markVerified, the mutation the code performs. -/
def markVerifiedFiltered (db : DB) (d : String) (now : Nat) : Nat × DB :=
  let hit := fun (r : RedeemedCouponRow) => r.id == d && r.verified == false
  ((db.redeemed_coupons.filter hit).length,
    { db with redeemed_coupons :=
        db.redeemed_coupons.map (fun r =>
          if hit r then
            { r with verified := true, verified_at := some now }
          else r) })

/-- handleQRCode from qrCodeController.ts: the single scan endpoint.
With an amount present it treats the payload as a profile code: it
rejects coupon payloads, atomically claims the code, validates the
amount, and forwards to awardLoyaltyPoints; without an amount it treats
the payload as a redeemed-coupon code: it rejects profile payloads,
reads the unverified claim, checks the business scope, and marks the
claim verified. -/
def handleQRCode (authUser : Option String) (qrCodeData : Option String)
    (amount : Option JNum) (logOk : Bool) (now : Nat) (db : DB) :
    Except Err HandleResp × DB :=
  match authUser with
  | none => (.error ⟨401, "Not authenticated"⟩, db)
  | some staffUserId =>
    match findUser db staffUserId with
    | none => (.error ⟨500, "Error fetching user data"⟩, db)
    | some staffUser =>
      if ¬(staffUser.role == "Staff" || staffUser.role == "Owner") then
        (.error ⟨403,
          "Access denied. Only staff members and owners can scan QR codes."⟩, db)
      else
        match qrCodeData with
        | none => (.error ⟨400, "Invalid input. Please provide QR code data."⟩, db)
        | some d =>
          if d == "" then
            (.error ⟨400, "Invalid input. Please provide QR code data."⟩, db)
          else
            match amount with
            | some amt =>
              if (single? (db.redeemed_coupons.filter (fun r => r.id == d))).isSome then
                (.error ⟨400,
                  "Invalid QR code type. Points can only be added using a profile QR code. This appears to be a coupon QR code."⟩,
                  db)
              else
                match claimQrCode db d with
                | (claimed, db1) =>
                  match claimed with
                  | none =>
                    (.error ⟨400,
                      "Invalid or already used profile QR code. Please generate a new one."⟩,
                      db1)
                  | some _ =>
                    if amt.isNaN || amt.invalidAmount then
                      (.error ⟨400,
                        "Invalid input. Please provide a valid amount for loyalty points."⟩,
                        db1)
                    else
                      match Loyalty.awardLoyaltyPoints (some staffUserId)
                        (some d) (some amt) logOk db1 with
                      | (res, db2) => (res.map HandleResp.award, db2)
            | none =>
              if (single? (db.qr_codes.filter (fun r => r.qr_data == d))).isSome then
                (.error ⟨400,
                  "Invalid QR code type. Coupons can only be verified using a coupon QR code. This appears to be a profile QR code."⟩,
                  db)
              else
                match single? (db.redeemed_coupons.filter
                    (fun r => r.id == d && r.verified == false)) with
                | none => (.error ⟨400, "Invalid or already verified coupon."⟩, db)
                | some rc =>
                  if staffUser.business_id ≠ some rc.business_id then
                    (.error ⟨403,
                      "Access denied. You can only verify coupons for your business."⟩,
                      db)
                  else
                    (.ok (.couponVerified rc.coupon_id), markVerified db d now)

end Qr

namespace Coupon

/-- Lookup in the relational all_users table (the identity source of
couponController). -/
def findAllUser (db : DB) (uid : String) : Option AllUserRow :=
  single? (db.all_users.filter (fun r => r.user_id == uid))

/-- Hex-digit test of the UUID character classes, case-insensitive. -/
def isHexDigit (c : Char) : Bool :=
  c.isDigit || ('a' ≤ c && c ≤ 'f') || ('A' ≤ c && c ≤ 'F')

/-- One dash-separated UUID group: fixed length, hex digits only. -/
def hexGroup (s : String) (n : Nat) : Bool :=
  s.length == n && s.toList.all isHexDigit

/-- The uuidRegex of couponController: five hex groups of lengths
8-4-4-4-12, version digit 1-5, variant digit 8, 9, a or b. -/
def isUuid (s : String) : Bool :=
  match splitOnDash s with
  | [a, b, c, d, e] =>
    hexGroup a 8 && hexGroup b 4 && hexGroup c 4 && hexGroup d 4 &&
    hexGroup e 12 &&
    (match c.toList with
     | x :: _ => x == '1' || x == '2' || x == '3' || x == '4' || x == '5'
     | [] => false) &&
    (match d.toList with
     | x :: _ => x == '8' || x == '9' || x == 'a' || x == 'b' ||
         x == 'A' || x == 'B'
     | [] => false)
  | _ => false

/-- The balance deduction statement of verifyCoupon: UPDATE
loyalty_points SET points = newPoints filtered on (user, business). -/
def deductPoints (db : DB) (u b : String) (newPoints : Int) : DB :=
  { db with loyalty_points :=
      db.loyalty_points.map (fun (r : LoyaltyPointsRow) =>
        if r.user_id == u && r.business_id == b then
          { r with points := newPoints }
        else r) }

/-- The claim-consumption statement of verifyCoupon: UPDATE
redeemed_coupons SET used=true, used_at=now filtered on the id. -/
def markUsed (db : DB) (rcId : String) (now : Nat) : DB :=
  { db with redeemed_coupons :=
      db.redeemed_coupons.map (fun (r : RedeemedCouponRow) =>
        if r.id == rcId then { r with used := true, used_at := some now }
        else r) }

/-- The best-effort VERIFY_COUPON staff-action append of verifyCoupon;
its outcome (logOk) is never inspected by the handler. -/
def logVerification (db : DB) (logOk : Bool) (sid b rcId couponName : String)
    (req : Int) : DB :=
  if logOk then
    { db with staff_actions := db.staff_actions ++
        [⟨sid, "VERIFY_COUPON", b, none, none, some rcId, some couponName,
          some req⟩] }
  else db

/-- redeemCoupon from couponController.ts: the customer-initiated
redemption.  It resolves the coupon and inserts a redeemed_coupons row
carrying the business of the coupon; it reads no balance and performs no
deduction (the commented-out duplicate-redemption check included, the
only mutation is the insert).  The new row id is minted by the store;
an id collision makes the insert fail. -/
def redeemCoupon (authUser : Option String) (couponId : Option String)
    (now : Nat) (newId : String) (db : DB) :
    Except Err RedeemedCouponRow × DB :=
  match authUser with
  | none => (.error ⟨401, "Not authenticated"⟩, db)
  | some userId =>
    if strFalsy couponId then
      (.error ⟨400, "Coupon ID is required"⟩, db)
    else
      match couponId with
      | none => (.error ⟨400, "Coupon ID is required"⟩, db)
      | some cid =>
        match single? (db.coupons.filter (fun r => r.id == cid)) with
        | none => (.error ⟨400, "Invalid coupon"⟩, db)
        | some coupon =>
          if db.redeemed_coupons.any (fun r => r.id == newId) then
            (.error ⟨500, "Error redeeming coupon"⟩, db)
          else
            let row : RedeemedCouponRow :=
              ⟨newId, cid, userId, coupon.business_id, now,
                false, none, false, none⟩
            (.ok row,
              { db with redeemed_coupons := db.redeemed_coupons ++ [row] })

/-- The success body of the dedicated verify-coupon endpoint. -/
structure VerifyResp where
  coupon : CouponRow
  pointsDeducted : Int
  newPointsBalance : Int
deriving DecidableEq, Repr

/-- verifyCoupon from couponController.ts, the dedicated verify-coupon
endpoint: Staff-only, parses the payload into a redeemed-coupon id,
fetches the claim scoped to the staff business, rejects an already used
claim, checks the aggregate (user, business) balance against the coupon
threshold, deducts the threshold, marks the claim used, and appends a
best-effort VERIFY_COUPON staff action whose outcome (logOk) is never
inspected. -/
def verifyCoupon (authUser : Option String) (qrCodeData : Option String)
    (logOk : Bool) (now : Nat) (db : DB) : Except Err VerifyResp × DB :=
  match authUser with
  | none => (.error ⟨401, "Not authenticated"⟩, db)
  | some staffUserId =>
    match findAllUser db staffUserId with
    | none =>
      (.error ⟨403, "Access denied. Only staff members can verify coupons."⟩, db)
    | some staffData =>
      if staffData.role ≠ "Staff" then
        (.error ⟨403, "Access denied. Only staff members can verify coupons."⟩, db)
      else if strFalsy qrCodeData then
        (.error ⟨400, "Invalid input. Please provide QR code data."⟩, db)
      else
        match qrCodeData with
        | none => (.error ⟨400, "Invalid input. Please provide QR code data."⟩, db)
        | some payload =>
          match (if isUuid payload then Except.ok payload
            else if (splitOnDash payload).length ≠ 6 then
              Except.error (⟨400, "Invalid QR code format"⟩ : Err)
            else Except.ok (joinDash ((splitOnDash payload).take 5))) with
          | .error e => (.error e, db)
          | .ok rcId =>
            match single? (db.redeemed_coupons.filter
                (fun r => r.id == rcId && r.business_id == staffData.business_id)) with
            | none => (.error ⟨500, "Error verifying coupon"⟩, db)
            | some rc =>
              if rc.used then
                (.error ⟨400, "This coupon has already been used"⟩, db)
              else
                match single? (db.loyalty_points.filter
                    (fun r => r.user_id == rc.user_id &&
                      r.business_id == staffData.business_id)) with
                | none => (.error ⟨500, "Error fetching user points"⟩, db)
                | some lp =>
                  match single? (db.coupons.filter
                      (fun c => c.id == rc.coupon_id)) with
                  | none => (.error ⟨500, "An unexpected error occurred"⟩, db)
                  | some coupon =>
                    if lp.points < coupon.points_required then
                      (.error ⟨400, "Insufficient points to redeem this coupon"⟩, db)
                    else
                      (.ok ⟨coupon, coupon.points_required,
                          lp.points - coupon.points_required⟩,
                        logVerification
                          (markUsed
                            (deductPoints db rc.user_id staffData.business_id
                              (lp.points - coupon.points_required))
                            rcId now)
                          logOk staffUserId staffData.business_id rc.id
                          coupon.name coupon.points_required)

end Coupon

namespace Dispatch

/-- A businesses row: the per-business reward-mode setting. -/
structure BusinessRow where
  id : String
  loyalty_type : String
deriving DecidableEq, Repr

/-- A coupon_specific_points row: the per-coupon stamp counter keyed by
(user, business, coupon). -/
structure CspRow where
  user_id : String
  business_id : String
  coupon_id : String
  points : Int
  last_updated : Nat
deriving DecidableEq, Repr

/-- A user_loyalty_points row: the aggregate running total keyed by
(user, business). -/
structure UlpRow where
  user_id : String
  business_id : String
  total_points : Int
  last_updated : Nat
deriving DecidableEq, Repr

/-- A loyalty_points transaction row appended by the aggregate branch of
the dispatching scan handler. -/
structure LpLogRow where
  user_id : String
  business_id : String
  points : Int
  awarded_by : String
  awarded_at : Nat
deriving DecidableEq, Repr

/-- The relational store as seen by the dispatching revision of the scan
handler. -/
structure DDB where
  users : List AuthUser
  businesses : List BusinessRow
  qr_codes : List QRCodeRow
  coupon_specific_points : List CspRow
  user_loyalty_points : List UlpRow
  loyalty_points : List LpLogRow
  staff_actions : List StaffActionRow
deriving DecidableEq, Repr

/-- The .maybeSingle() modifier: none on zero rows, the row on one, an
error (thrown in the handler) on several. -/
def maybe? {α : Type} : List α → Except Unit (Option α)
  | [] => .ok none
  | [x] => .ok (some x)
  | _ => .error ()

/-- handleQRCode from the dispatching revision of qrCodeController kept
in the repository: after principal and input checks it reads the
loyalty_type of the staff business and dispatches: COUPONS mode reads
the unused code, upserts the (user, business, coupon) stamp counter and
marks the code used; every other mode upserts the (user, business)
running total, appends a loyalty_points transaction row and an
AWARD_POINTS staff action, and marks the code used.  CustomError throws
inside the handler are caught by its generic catch, which answers 500. -/
def handleQRCode (authUser : Option String) (qrCodeData : Option String)
    (amount : Option JNum) (couponId : Option String) (now : Nat)
    (db : DDB) : Except Err Int × DDB :=
  match authUser with
  | none => (.error ⟨401, "Not authenticated"⟩, db)
  | some staffUserId =>
    match db.users.find? (fun u => u.id == staffUserId) with
    | none => (.error ⟨500, "Error fetching user data"⟩, db)
    | some staffUser =>
      match staffUser.business_id with
      | none => (.error ⟨400, "Staff user is not associated with a business"⟩, db)
      | some staffBusinessId =>
        if strFalsy qrCodeData || jnumFalsy amount ||
            (match amount with
             | some (.num n) => n ≤ 0
             | _ => false) then
          (.error ⟨400,
            "Invalid input. Please provide valid QR code data and amount."⟩, db)
        else
          match qrCodeData, amount with
          | some d, some (.num n) =>
            match single? (db.businesses.filter (fun b => b.id == staffBusinessId)) with
            | none => (.error ⟨500, "Error fetching business data"⟩, db)
            | some business =>
              if business.loyalty_type == "COUPONS" then
                if strFalsy couponId then
                  (.error ⟨400,
                    "Coupon ID is required for coupon-specific points"⟩, db)
                else
                  match couponId with
                  | none =>
                    (.error ⟨400,
                      "Coupon ID is required for coupon-specific points"⟩, db)
                  | some cid =>
                    match single? (db.qr_codes.filter
                        (fun r => r.qr_data == d && r.used == false)) with
                    | none => (.error ⟨500, "An unexpected error occurred"⟩, db)
                    | some qrCode =>
                      match maybe? (db.coupon_specific_points.filter
                          (fun r => r.user_id == qrCode.user_id &&
                            r.business_id == staffBusinessId &&
                            r.coupon_id == cid)) with
                      | .error _ =>
                        (.error ⟨500, "An unexpected error occurred"⟩, db)
                      | .ok existingPoints =>
                        let db1 :=
                          match existingPoints with
                          | some ep =>
                            { db with coupon_specific_points :=
                                db.coupon_specific_points.map (fun (r : CspRow) =>
                                    if r.user_id == qrCode.user_id &&
                                        r.business_id == staffBusinessId &&
                                        r.coupon_id == cid then
                                      { r with points := ep.points + n, last_updated := now }
                                    else r) }
                          | none =>
                            { db with coupon_specific_points :=
                                db.coupon_specific_points ++
                                  [(⟨qrCode.user_id, staffBusinessId, cid, n, now⟩ : CspRow)] }
                        let newPoints :=
                          match existingPoints with
                          | some ep => ep.points + n
                          | none => n
                        let db2 :=
                          { db1 with qr_codes :=
                              db1.qr_codes.map (fun (r : QRCodeRow) =>
                                if r.qr_data == d then { r with used := true }
                                else r) }
                        (.ok newPoints, db2)
              else
                match single? (db.qr_codes.filter
                    (fun r => r.qr_data == d && r.used == false)) with
                | none => (.error ⟨500, "An unexpected error occurred"⟩, db)
                | some qrCode =>
                  match maybe? (db.user_loyalty_points.filter
                      (fun r => r.user_id == qrCode.user_id &&
                        r.business_id == staffBusinessId)) with
                  | .error _ => (.error ⟨500, "An unexpected error occurred"⟩, db)
                  | .ok existingPoints =>
                    let currentPoints :=
                      match existingPoints with
                      | some ep => ep.total_points
                      | none => 0
                    let newPoints := currentPoints + n
                    let db1 :=
                      match existingPoints with
                      | some _ =>
                        { db with user_loyalty_points :=
                            db.user_loyalty_points.map (fun (r : UlpRow) =>
                              if r.user_id == qrCode.user_id &&
                                  r.business_id == staffBusinessId then
                                { r with total_points := newPoints, last_updated := now }
                              else r) }
                      | none =>
                        { db with user_loyalty_points :=
                            db.user_loyalty_points ++
                              [(⟨qrCode.user_id, staffBusinessId, newPoints, now⟩ : UlpRow)] }
                    let db2 :=
                      { db1 with loyalty_points :=
                          db1.loyalty_points ++
                            [(⟨qrCode.user_id, staffBusinessId, n,
                              staffUser.id, now⟩ : LpLogRow)] }
                    let db3 :=
                      { db2 with staff_actions :=
                          db2.staff_actions ++
                            [(⟨staffUser.id, "AWARD_POINTS", staffBusinessId,
                              some n, some qrCode.user_id, none, none, none⟩ : StaffActionRow)] }
                    let db4 :=
                      { db3 with qr_codes :=
                          db3.qr_codes.map (fun (r : QRCodeRow) =>
                            if r.qr_data == d then { r with used := true }
                            else r) }
                    (.ok newPoints, db4)
          | _, _ =>
            (.error ⟨400,
              "Invalid input. Please provide valid QR code data and amount."⟩, db)

end Dispatch

/-- One operation of the core against the shared store: a scan request
(award or verification depending on the presence of an amount), a direct
award, a customer redemption, or a staff verification. -/
inductive Op where
  | scan (authUser : Option String) (qrCodeData : Option String)
      (amount : Option JNum) (logOk : Bool) (now : Nat)
  | award (authUser : Option String) (qrCodeData : Option String)
      (amount : Option JNum) (logOk : Bool)
  | redeem (authUser : Option String) (couponId : Option String)
      (now : Nat) (newId : String)
  | verify (authUser : Option String) (qrCodeData : Option String)
      (logOk : Bool) (now : Nat)
deriving Repr

/-- Execution of one operation: success flag of the HTTP outcome and the
successor store. -/
def step (op : Op) (db : DB) : Bool × DB :=
  match op with
  | .scan a q am lg now =>
    let r := Qr.handleQRCode a q am lg now db
    (r.1.toBool, r.2)
  | .award a q am lg =>
    let r := Loyalty.awardLoyaltyPoints a q am lg db
    (r.1.toBool, r.2)
  | .redeem a c now newId =>
    let r := Coupon.redeemCoupon a c now newId db
    (r.1.toBool, r.2)
  | .verify a q lg now =>
    let r := Coupon.verifyCoupon a q lg now db
    (r.1.toBool, r.2)

/-- Every aggregate point balance of the store is nonnegative. -/
def balancesNonneg (db : DB) : Prop :=
  ∀ r ∈ db.loyalty_points, 0 ≤ r.points

/-- Every balance of the dispatching revision store (running totals and
per-coupon stamp counters) is nonnegative. -/
def dispatchBalancesNonneg (db : Dispatch.DDB) : Prop :=
  (∀ r ∈ db.user_loyalty_points, 0 ≤ r.total_points) ∧
  (∀ r ∈ db.coupon_specific_points, 0 ≤ r.points)

/-- The serialization of n concurrent scan requests for the same payload:
the store executes their atomic statements in some order, and since the
winning or losing of each request is decided by its single conditional
code-claim UPDATE, every interleaving produces the outcomes of some
sequential order of the requests. -/
def runScans (authUser : Option String) (d : String) (amount : Option JNum)
    (logOk : Bool) (now : Nat) : Nat → DB → List (Except Err Qr.HandleResp) × DB
  | 0, db => ([], db)
  | n + 1, db =>
    let r := Qr.handleQRCode authUser (some d) amount logOk now db
    let rest := runScans authUser d amount logOk now n r.2
    (r.1 :: rest.1, rest.2)

/-- Example staff principal used by the concrete evaluations. -/
def exStaff : AuthUser := ⟨"staff1", "Staff", some "b1"⟩

/-- Example customer; the id has the five dash-separated groups the
award path reassembles from a code payload. -/
def exCust : AuthUser := ⟨"u1-x2-x3-x4-x5", "Client", none⟩

/-- An unused code of the example customer. -/
def exQr1 : QRCodeRow := ⟨1, "u1-x2-x3-x4-x5", "u1-x2-x3-x4-x5-1000", false, 1000⟩

/-- A second unused code of the example customer. -/
def exQr2 : QRCodeRow := ⟨2, "u1-x2-x3-x4-x5", "u1-x2-x3-x4-x5-2000", false, 2000⟩

/-- An example coupon of business b1 requiring 100 points. -/
def exCoupon : CouponRow :=
  ⟨"00000000-0000-1000-8000-00000000000a", "b1", "Free Coffee", 100, true⟩

/-- An example redeemed-coupon claim, not yet verified and not yet used. -/
def exRc : RedeemedCouponRow :=
  ⟨"00000000-0000-1000-8000-00000000000b",
    "00000000-0000-1000-8000-00000000000a", "u1-x2-x3-x4-x5", "b1", 3,
    false, none, false, none⟩

/-- Store of the award scenario: staff member, customer, two unused
codes, no balances yet. -/
def dbScenario : DB := ⟨[exStaff, exCust], [], [exQr1, exQr2], [], [], [], []⟩

/-- Store of the redemption counterexample: the customer holds 80 points
at business b1 while the coupon requires 100. -/
def dbRedeem : DB :=
  ⟨[exStaff, exCust], [⟨"staff1", "b1", "Staff"⟩], [], [], [exCoupon],
    [⟨"u1-x2-x3-x4-x5", "b1", 80⟩], []⟩

/-- Store of the verification example: an unverified, unused claim and a
balance of 120 points. -/
def dbVerify : DB :=
  ⟨[exStaff, exCust], [⟨"staff1", "b1", "Staff"⟩], [], [exRc], [exCoupon],
    [⟨"u1-x2-x3-x4-x5", "b1", 120⟩], []⟩

/-- Store holding an already verified claim (verified at time 5). -/
def dbVerified : DB :=
  ⟨[exStaff, exCust], [], [],
    [{ exRc with verified := true, verified_at := some 5 }], [exCoupon],
    [], []⟩

/-- Store of the scan-verification example: the claim is unverified. -/
def dbScanVerify : DB := ⟨[exStaff, exCust], [], [], [exRc], [exCoupon], [], []⟩

/-- An unused code of customer u9 for the dispatching revision. -/
def exQr9 : QRCodeRow := ⟨1, "u9", "u9-1000", false, 1000⟩

/-- Dispatching-revision store of a business in per-coupon stamp mode. -/
def dbDispatchCoupons : Dispatch.DDB :=
  ⟨[exStaff, ⟨"u9", "Client", none⟩], [⟨"b1", "COUPONS"⟩], [exQr9],
    [], [], [], []⟩

/-- Dispatching-revision store of a business in aggregate points mode. -/
def dbDispatchPoints : Dispatch.DDB :=
  ⟨[exStaff, ⟨"u9", "Client", none⟩], [⟨"b1", "POINTS"⟩], [exQr9],
    [], [], [], []⟩

theorem single?_nil {α : Type} : single? ([] : List α) = none := rfl

theorem single?_pair {α : Type} (x : α) : single? [x] = some x := rfl

theorem map_id_of_no_hit {α : Type} (l : List α) (p : α → Bool) (f : α → α)
    (h : ∀ x ∈ l, p x = false) :
    l.map (fun x => if p x then f x else x) = l := by
  induction l with
  | nil => rfl
  | cons a t ih =>
    simp only [List.map_cons, h a (List.mem_cons_self a t), if_neg]
    rw [ih (fun x hx => h x (List.mem_cons_of_mem a hx))]
    simp

theorem claimQrCode_no_unused (db : DB) (d : String)
    (h : ∀ r ∈ db.qr_codes, r.qr_data = d → r.used = true) :
    Qr.claimQrCode db d = (none, db) := by
  have hp : ∀ r ∈ db.qr_codes, (r.qr_data == d && r.used == false) = false := by
    intro r hr
    by_cases hd : r.qr_data = d
    · simp [hd, h r hr hd]
    · simp [hd]
  have hf : db.qr_codes.filter (fun r => r.qr_data == d && r.used == false) = [] := by
    rw [List.filter_eq_nil_iff]
    intro r hr
    simpa using h r hr
  unfold Qr.claimQrCode
  simp only [hf, List.map_nil]
  rw [map_id_of_no_hit db.qr_codes _ _ hp]
  rfl

theorem claimQrCode_unique_unused (db : DB) (d : String) (q : QRCodeRow)
    (hq : db.qr_codes.filter (fun r => r.qr_data == d) = [q])
    (hqu : q.used = false) :
    (Qr.claimQrCode db d).1 = some { q with used := true } ∧
    (Qr.claimQrCode db d).2.users = db.users ∧
    (Qr.claimQrCode db d).2.redeemed_coupons = db.redeemed_coupons ∧
    (Qr.claimQrCode db d).2.loyalty_points = db.loyalty_points ∧
    ∀ r ∈ (Qr.claimQrCode db d).2.qr_codes, r.qr_data = d → r.used = true := by
  have hff : db.qr_codes.filter (fun r => r.qr_data == d && r.used == false) =
      (db.qr_codes.filter (fun r => r.qr_data == d)).filter
        (fun r => r.used == false) := by
    rw [List.filter_filter]
    congr 1
    funext r
    rw [Bool.and_comm]
  have hf1 : db.qr_codes.filter (fun r => r.qr_data == d && r.used == false) = [q] := by
    rw [hff, hq]
    simp [List.filter, hqu]
  refine ⟨?_, rfl, rfl, rfl, ?_⟩
  · unfold Qr.claimQrCode
    simp only [hf1, List.map_cons, List.map_nil]
    rfl
  · intro r hr
    unfold Qr.claimQrCode at hr
    simp only [List.mem_map] at hr
    obtain ⟨r0, hr0, hrule⟩ := hr
    by_cases hhit : (r0.qr_data == d && r0.used == false) = true
    · intro _
      rw [if_pos hhit] at hrule
      rw [← hrule]
    · rw [if_neg (by simpa using hhit)] at hrule
      subst hrule
      intro hrd
      simp only [Bool.and_eq_true, beq_iff_eq] at hhit
      push_neg at hhit
      have := hhit hrd
      simpa using this

theorem award_rpc_frame (db : DB) (u b : String) (n : Int) :
    (Loyalty.award_loyalty_points db u b n).2.users = db.users ∧
    (Loyalty.award_loyalty_points db u b n).2.all_users = db.all_users ∧
    (Loyalty.award_loyalty_points db u b n).2.qr_codes = db.qr_codes ∧
    (Loyalty.award_loyalty_points db u b n).2.redeemed_coupons = db.redeemed_coupons ∧
    (Loyalty.award_loyalty_points db u b n).2.coupons = db.coupons ∧
    (Loyalty.award_loyalty_points db u b n).2.staff_actions = db.staff_actions := by
  unfold Loyalty.award_loyalty_points
  split <;> simp

theorem awardLoyaltyPoints_success (db : DB) (sid d bid : String) (a : Int)
    (lg : Bool) (su cu : AuthUser)
    (hfind : findUser db sid = some su)
    (hrole : su.role = "Staff" ∨ su.role = "Owner")
    (hbid : su.business_id = some bid)
    (hd : d ≠ "")
    (ha : 0 < a)
    (hcust : findUser db (Loyalty.extractUserId d) = some cu) :
    Loyalty.awardLoyaltyPoints (some sid) (some d) (some (.num a)) lg db =
      (.ok ⟨a, (Loyalty.award_loyalty_points db (Loyalty.extractUserId d) bid a).1⟩,
        if lg then
          { (Loyalty.award_loyalty_points db (Loyalty.extractUserId d) bid a).2 with
              staff_actions :=
                (Loyalty.award_loyalty_points db (Loyalty.extractUserId d) bid a).2.staff_actions ++
                  [⟨sid, "AWARD_POINTS", bid, some a,
                    some (Loyalty.extractUserId d), none, none, none⟩] }
        else (Loyalty.award_loyalty_points db (Loyalty.extractUserId d) bid a).2) := by
  have hrole' : (su.role == "Staff" || su.role == "Owner") = true := by
    rcases hrole with h | h <;> simp [h]
  have hd' : (d == "") = false := by
    simpa using hd
  have ha0 : (a == 0) = false := by
    simpa using ha.ne'
  have hinv : (JNum.num a).invalidAmount = false := by
    simp [JNum.invalidAmount, not_le.mpr ha]
  unfold Loyalty.awardLoyaltyPoints
  simp only [hfind, hrole', strFalsy, jnumFalsy, hd', ha0, JNum.isNaN, hinv,
    Bool.false_or, Bool.or_false, Bool.not_true, Bool.false_eq_true,
    not_false_eq_true, if_false, ite_false, hcust, hbid]
  simp

theorem scan_award_success (db : DB) (sid d bid : String) (a : Int)
    (lg : Bool) (now : Nat) (su cu : AuthUser) (q : QRCodeRow)
    (hfind : findUser db sid = some su)
    (hrole : su.role = "Staff" ∨ su.role = "Owner")
    (hbid : su.business_id = some bid)
    (hd : d ≠ "")
    (hrc : ∀ r ∈ db.redeemed_coupons, r.id ≠ d)
    (hq : db.qr_codes.filter (fun r => r.qr_data == d) = [q])
    (hqu : q.used = false)
    (ha : 0 < a)
    (hcust : findUser db (Loyalty.extractUserId d) = some cu) :
    Qr.handleQRCode (some sid) (some d) (some (.num a)) lg now db =
      (.ok (.award ⟨a, (Loyalty.award_loyalty_points (Qr.claimQrCode db d).2
          (Loyalty.extractUserId d) bid a).1⟩),
        if lg then
          { (Loyalty.award_loyalty_points (Qr.claimQrCode db d).2
              (Loyalty.extractUserId d) bid a).2 with
              staff_actions :=
                (Loyalty.award_loyalty_points (Qr.claimQrCode db d).2
                  (Loyalty.extractUserId d) bid a).2.staff_actions ++
                  [⟨sid, "AWARD_POINTS", bid, some a,
                    some (Loyalty.extractUserId d), none, none, none⟩] }
        else (Loyalty.award_loyalty_points (Qr.claimQrCode db d).2
          (Loyalty.extractUserId d) bid a).2) := by
  have hrole' : (su.role == "Staff" || su.role == "Owner") = true := by
    rcases hrole with h | h <;> simp [h]
  have hd' : (d == "") = false := by
    simpa using hd
  have hrcf : db.redeemed_coupons.filter (fun r => r.id == d) = [] := by
    rw [List.filter_eq_nil_iff]
    intro r hr
    simpa using hrc r hr
  obtain ⟨hc1, hcu, hcrc, hclp, hcall⟩ := claimQrCode_unique_unused db d q hq hqu
  have hfind2 : findUser (Qr.claimQrCode db d).2 sid = some su := by
    unfold findUser at hfind ⊢
    rw [hcu, hfind]
  have hcust2 : findUser (Qr.claimQrCode db d).2 (Loyalty.extractUserId d) = some cu := by
    unfold findUser at hcust ⊢
    rw [hcu, hcust]
  have hnan : (JNum.num a).isNaN = false := rfl
  have hinv : (JNum.num a).invalidAmount = false := by
    simp [JNum.invalidAmount, not_le.mpr ha]
  have haward := awardLoyaltyPoints_success (Qr.claimQrCode db d).2 sid d bid a
    lg su cu hfind2 hrole hbid hd ha hcust2
  unfold Qr.handleQRCode
  simp only [hfind, hrole', hd', hrcf, single?_nil, Option.isSome_none, hc1,
    hnan, hinv, haward]
  simp [Except.map]

theorem scan_award_success_state (db : DB) (sid d bid : String) (a : Int)
    (lg : Bool) (now : Nat) (su cu : AuthUser) (q : QRCodeRow)
    (hfind : findUser db sid = some su)
    (hrole : su.role = "Staff" ∨ su.role = "Owner")
    (hbid : su.business_id = some bid)
    (hd : d ≠ "")
    (hrc : ∀ r ∈ db.redeemed_coupons, r.id ≠ d)
    (hq : db.qr_codes.filter (fun r => r.qr_data == d) = [q])
    (hqu : q.used = false)
    (ha : 0 < a)
    (hcust : findUser db (Loyalty.extractUserId d) = some cu) :
    (Qr.handleQRCode (some sid) (some d) (some (.num a)) lg now db).1 =
      .ok (.award ⟨a, (Loyalty.award_loyalty_points (Qr.claimQrCode db d).2
        (Loyalty.extractUserId d) bid a).1⟩) ∧
    (Qr.handleQRCode (some sid) (some d) (some (.num a)) lg now db).2.users = db.users ∧
    (Qr.handleQRCode (some sid) (some d) (some (.num a)) lg now db).2.redeemed_coupons =
      db.redeemed_coupons ∧
    ∀ r ∈ (Qr.handleQRCode (some sid) (some d) (some (.num a)) lg now db).2.qr_codes,
      r.qr_data = d → r.used = true := by
  obtain ⟨hc1, hcu, hcrc, hclp, hcall⟩ := claimQrCode_unique_unused db d q hq hqu
  obtain ⟨hau, haall, haqr, harc, hacoup, hasa⟩ :=
    award_rpc_frame (Qr.claimQrCode db d).2 (Loyalty.extractUserId d) bid a
  rw [scan_award_success db sid d bid a lg now su cu q hfind hrole hbid hd hrc
    hq hqu ha hcust]
  refine ⟨rfl, ?_, ?_, ?_⟩
  · cases lg <;> simp [hau, hcu]
  · cases lg <;> simp [harc, hcrc]
  · intro r hr
    cases lg <;> simp only [ite_true, ite_false, Bool.false_eq_true] at hr
    · exact hcall r (by rwa [haqr] at hr)
    · exact hcall r (by rwa [haqr] at hr)

theorem scan_award_rejected (db : DB) (sid d : String) (amt : JNum)
    (lg : Bool) (now : Nat) (su : AuthUser)
    (hfind : findUser db sid = some su)
    (hrole : su.role = "Staff" ∨ su.role = "Owner")
    (hd : d ≠ "")
    (hrc : ∀ r ∈ db.redeemed_coupons, r.id ≠ d)
    (hused : ∀ r ∈ db.qr_codes, r.qr_data = d → r.used = true) :
    Qr.handleQRCode (some sid) (some d) (some amt) lg now db =
      (.error ⟨400,
        "Invalid or already used profile QR code. Please generate a new one."⟩,
        db) := by
  have hrole' : (su.role == "Staff" || su.role == "Owner") = true := by
    rcases hrole with h | h <;> simp [h]
  have hd' : (d == "") = false := by
    simpa using hd
  have hrcf : db.redeemed_coupons.filter (fun r => r.id == d) = [] := by
    rw [List.filter_eq_nil_iff]
    intro r hr
    simpa using hrc r hr
  unfold Qr.handleQRCode
  simp only [hfind, hrole', hd', hrcf, single?_nil, Option.isSome_none,
    claimQrCode_no_unused db d hused]
  simp

theorem countP_replicate {α : Type} (p : α → Bool) (x : α) (m : Nat) :
    (List.replicate m x).countP p = if p x then m else 0 := by
  induction m with
  | zero => simp
  | succ k ih =>
    by_cases h : p x <;>
      simp [List.replicate_succ, List.countP_cons, ih, h]

theorem runScans_all_rejected (db : DB) (sid d : String) (amt : JNum)
    (lg : Bool) (now : Nat) (su : AuthUser) (m : Nat)
    (hfind : findUser db sid = some su)
    (hrole : su.role = "Staff" ∨ su.role = "Owner")
    (hd : d ≠ "")
    (hrc : ∀ r ∈ db.redeemed_coupons, r.id ≠ d)
    (hused : ∀ r ∈ db.qr_codes, r.qr_data = d → r.used = true) :
    runScans (some sid) d (some amt) lg now m db =
      (List.replicate m (.error ⟨400,
        "Invalid or already used profile QR code. Please generate a new one."⟩),
        db) := by
  induction m with
  | zero => rfl
  | succ k ih =>
    unfold runScans
    rw [scan_award_rejected db sid d amt lg now su hfind hrole hd hrc hused]
    simp only [ih, List.replicate_succ]

/-- C1: N award requests against the same unused RedemptionCode.  Each
request decides success through its single conditional claim UPDATE, so
the store serializes the requests; in every serialization (modelled by
runScans) exactly one request succeeds and the other N-1 are rejected
with the already-used error, for every N at least 1. -/
theorem no_double_award (db : DB) (sid d bid : String) (a : Int) (lg : Bool)
    (now : Nat) (su cu : AuthUser) (q : QRCodeRow) (n : Nat)
    (hfind : findUser db sid = some su)
    (hrole : su.role = "Staff" ∨ su.role = "Owner")
    (hbid : su.business_id = some bid)
    (hd : d ≠ "")
    (hrc : ∀ r ∈ db.redeemed_coupons, r.id ≠ d)
    (hq : db.qr_codes.filter (fun r => r.qr_data == d) = [q])
    (hqu : q.used = false)
    (ha : 0 < a)
    (hcust : findUser db (Loyalty.extractUserId d) = some cu)
    (hn : 1 ≤ n) :
    (runScans (some sid) d (some (.num a)) lg now n db).1.countP
      (fun r => r.isOk) = 1 ∧
    (runScans (some sid) d (some (.num a)) lg now n db).1.countP
      (fun r => match r with
        | .error e => decide (e = ⟨400,
            "Invalid or already used profile QR code. Please generate a new one."⟩)
        | .ok _ => false) =
      n - 1 := by
  obtain ⟨k, rfl⟩ : ∃ k, n = k + 1 := ⟨n - 1, (Nat.succ_pred_eq_of_pos hn).symm⟩
  obtain ⟨h1, hu1, hrc1, hused1⟩ := scan_award_success_state db sid d bid a lg
    now su cu q hfind hrole hbid hd hrc hq hqu ha hcust
  have hfind1 :
      findUser (Qr.handleQRCode (some sid) (some d) (some (.num a)) lg now db).2 sid =
        some su := by
    unfold findUser at hfind ⊢
    rw [hu1]
    exact hfind
  have hrc1' :
      ∀ r ∈ (Qr.handleQRCode (some sid) (some d) (some (.num a)) lg now db).2.redeemed_coupons,
        r.id ≠ d := by
    rw [hrc1]
    exact hrc
  have hrun := runScans_all_rejected
    (Qr.handleQRCode (some sid) (some d) (some (.num a)) lg now db).2 sid d
    (.num a) lg now su k hfind1 hrole hd hrc1' hused1
  simp only [runScans]
  rw [hrun]
  simp only [List.countP_cons, countP_replicate, h1]
  simp [Except.isOk, Except.toBool]

/-- Witness for C1: three serialized scans of the same unused code on the
example store give one success and two already-used rejections. -/
theorem no_double_award_witness :
    1 ≤ 3 ∧
    (runScans (some "staff1") "u1-x2-x3-x4-x5-1000" (some (.num 50)) true 5 3
      dbScenario).1.countP (fun r => r.isOk) = 1 ∧
    (runScans (some "staff1") "u1-x2-x3-x4-x5-1000" (some (.num 50)) true 5 3
      dbScenario).1.countP
      (fun r => match r with
        | .error e => decide (e = ⟨400,
            "Invalid or already used profile QR code. Please generate a new one."⟩)
        | .ok _ => false) = 2 :=
  ⟨by decide,
    no_double_award dbScenario "staff1" "u1-x2-x3-x4-x5-1000" "b1" 50 true 5
      exStaff exCust exQr1 3 (by decide) (Or.inl rfl) (by decide) (by decide)
      (by decide) (by decide) (by decide) (by decide) (by decide) (by decide)⟩

/-- C2: a scan-award request whose payload matches no profile code or
whose code is already marked used is rejected with the
invalid-or-already-used error and stops with the store unchanged, so no
point balance changes; and in the sequential scenario, awarding 50 via
code C1 yields balance 50, reusing C1 is rejected leaving 50, and
awarding 30 via the fresh code C2 yields 80. -/
theorem award_used_code_rejected_no_balance_change
    (db : DB) (sid d : String) (amt : JNum) (lg : Bool) (now : Nat)
    (su : AuthUser)
    (hfind : findUser db sid = some su)
    (hrole : su.role = "Staff" ∨ su.role = "Owner")
    (hd : d ≠ "")
    (hrc : ∀ r ∈ db.redeemed_coupons, r.id ≠ d)
    (hused : ∀ r ∈ db.qr_codes, r.qr_data = d → r.used = true) :
    Qr.handleQRCode (some sid) (some d) (some amt) lg now db =
      (.error ⟨400,
        "Invalid or already used profile QR code. Please generate a new one."⟩,
        db) ∧
    (let s1 := Qr.handleQRCode (some "staff1") (some "u1-x2-x3-x4-x5-1000")
      (some (.num 50)) true 5 dbScenario
    let s2 := Qr.handleQRCode (some "staff1") (some "u1-x2-x3-x4-x5-1000")
      (some (.num 50)) true 6 s1.2
    let s3 := Qr.handleQRCode (some "staff1") (some "u1-x2-x3-x4-x5-2000")
      (some (.num 30)) true 7 s2.2
    s1.1 = .ok (.award ⟨50, 50⟩) ∧
    s1.2.loyalty_points = [⟨"u1-x2-x3-x4-x5", "b1", 50⟩] ∧
    s2.1 = .error ⟨400,
      "Invalid or already used profile QR code. Please generate a new one."⟩ ∧
    s2.2.loyalty_points = [⟨"u1-x2-x3-x4-x5", "b1", 50⟩] ∧
    s3.1 = .ok (.award ⟨30, 80⟩) ∧
    s3.2.loyalty_points = [⟨"u1-x2-x3-x4-x5", "b1", 80⟩]) :=
  ⟨scan_award_rejected db sid d amt lg now su hfind hrole hd hrc hused,
    by decide⟩

/-- Witness for C2: on a store whose only claims and codes do not match
the payload, the scan-award request is rejected and the store is
unchanged. -/
theorem award_used_code_rejected_witness :
    Qr.handleQRCode (some "staff1") (some "nosuchcode") (some (.num 50)) true 5
      dbVerified =
      (.error ⟨400,
        "Invalid or already used profile QR code. Please generate a new one."⟩,
        dbVerified) ∧
    (let s1 := Qr.handleQRCode (some "staff1") (some "u1-x2-x3-x4-x5-1000")
      (some (.num 50)) true 5 dbScenario
    let s2 := Qr.handleQRCode (some "staff1") (some "u1-x2-x3-x4-x5-1000")
      (some (.num 50)) true 6 s1.2
    let s3 := Qr.handleQRCode (some "staff1") (some "u1-x2-x3-x4-x5-2000")
      (some (.num 30)) true 7 s2.2
    s1.1 = .ok (.award ⟨50, 50⟩) ∧
    s1.2.loyalty_points = [⟨"u1-x2-x3-x4-x5", "b1", 50⟩] ∧
    s2.1 = .error ⟨400,
      "Invalid or already used profile QR code. Please generate a new one."⟩ ∧
    s2.2.loyalty_points = [⟨"u1-x2-x3-x4-x5", "b1", 50⟩] ∧
    s3.1 = .ok (.award ⟨30, 80⟩) ∧
    s3.2.loyalty_points = [⟨"u1-x2-x3-x4-x5", "b1", 80⟩]) :=
  award_used_code_rejected_no_balance_change dbVerified "staff1" "nosuchcode"
    (.num 50) true 5 exStaff (by decide) (Or.inl rfl) (by decide) (by decide)
    (by decide)

/-- C6: on a scan-award request carrying amount 0 for a valid unused
code, the handler first consumes the code (used becomes true) and only
then rejects the amount: no balance changes, but the presented
RedemptionCode is consumed, contradicting the reject-before-touching-
the-code requirement. -/
theorem award_invalid_amount_consumes_code :
    (Qr.handleQRCode (some "staff1") (some "u1-x2-x3-x4-x5-1000")
      (some (.num 0)) true 5 dbScenario).1 =
      .error ⟨400,
        "Invalid input. Please provide a valid amount for loyalty points."⟩ ∧
    (Qr.handleQRCode (some "staff1") (some "u1-x2-x3-x4-x5-1000")
      (some (.num 0)) true 5 dbScenario).2.qr_codes =
      [{ exQr1 with used := true }, exQr2] ∧
    (Qr.handleQRCode (some "staff1") (some "u1-x2-x3-x4-x5-1000")
      (some (.num 0)) true 5 dbScenario).2.loyalty_points = [] := by
  decide

theorem redeemCoupon_lp_frame (a c : Option String) (n : Nat) (ni : String)
    (db : DB) :
    (Coupon.redeemCoupon a c n ni db).2.loyalty_points = db.loyalty_points := by
  unfold Coupon.redeemCoupon
  split
  · rfl
  · split
    · rfl
    · split
      · rfl
      · split
        · rfl
        · split
          · rfl
          · rfl

/-- C3 counterexample: with a balance of 80 against a coupon requiring
100 points, the customer redemption is not rejected: it succeeds, a
RedeemedCoupon row is created, and the balance is untouched — refuting
the claim that an insufficient balance makes redeemCoupon reject with no
RedeemedCoupon created. -/
theorem redeem_insufficient_balance_succeeds :
    (80 : Int) < exCoupon.points_required ∧
    dbRedeem.loyalty_points = [⟨"u1-x2-x3-x4-x5", "b1", 80⟩] ∧
    (Coupon.redeemCoupon (some "u1-x2-x3-x4-x5")
      (some "00000000-0000-1000-8000-00000000000a") 3
      "00000000-0000-1000-8000-00000000000b" dbRedeem).1.isOk = true ∧
    (Coupon.redeemCoupon (some "u1-x2-x3-x4-x5")
      (some "00000000-0000-1000-8000-00000000000a") 3
      "00000000-0000-1000-8000-00000000000b" dbRedeem).2.redeemed_coupons =
      [exRc] ∧
    (Coupon.redeemCoupon (some "u1-x2-x3-x4-x5")
      (some "00000000-0000-1000-8000-00000000000a") 3
      "00000000-0000-1000-8000-00000000000b" dbRedeem).2.loyalty_points =
      [⟨"u1-x2-x3-x4-x5", "b1", 80⟩] := by
  decide

/-- C3 (amended): redeemCoupon reads no balance and deducts nothing:
whenever the coupon id resolves and the minted row id is fresh, the
redemption succeeds whatever the balance, appending a RedeemedCoupon row
with verified=false and used=false, and every point balance is left
unchanged on every call (the sufficiency check and the deduction are
deferred to staff verification). -/
theorem redeemCoupon_no_balance_check
    (db : DB) (uid cid newId : String) (now : Nat) (coupon : CouponRow)
    (hc : single? (db.coupons.filter (fun r => r.id == cid)) = some coupon)
    (hcid : cid ≠ "")
    (hfresh : ∀ r ∈ db.redeemed_coupons, r.id ≠ newId) :
    (Coupon.redeemCoupon (some uid) (some cid) now newId db).1 =
      .ok ⟨newId, cid, uid, coupon.business_id, now, false, none, false, none⟩ ∧
    (Coupon.redeemCoupon (some uid) (some cid) now newId db).2.redeemed_coupons =
      db.redeemed_coupons ++
        [⟨newId, cid, uid, coupon.business_id, now, false, none, false, none⟩] ∧
    (∀ a c n2 ni db2,
      (Coupon.redeemCoupon a c n2 ni db2).2.loyalty_points =
        db2.loyalty_points) := by
  have hcid' : (cid == "") = false := by simpa using hcid
  have hany : db.redeemed_coupons.any (fun r => r.id == newId) = false := by
    rw [List.any_eq_false]
    intro r hr
    simpa using hfresh r hr
  refine ⟨?_, ?_, fun a c n2 ni db2 => redeemCoupon_lp_frame a c n2 ni db2⟩ <;>
    · unfold Coupon.redeemCoupon
      simp [strFalsy, hcid', hc, hany]

/-- Witness for C3 (amended): concrete redemption on the 80-point store
against the 100-point coupon. -/
theorem redeemCoupon_no_balance_check_witness :
    (Coupon.redeemCoupon (some "u1-x2-x3-x4-x5")
      (some "00000000-0000-1000-8000-00000000000a") 3
      "00000000-0000-1000-8000-00000000000b" dbRedeem).1 =
      .ok ⟨"00000000-0000-1000-8000-00000000000b",
        "00000000-0000-1000-8000-00000000000a", "u1-x2-x3-x4-x5",
        exCoupon.business_id, 3, false, none, false, none⟩ ∧
    (Coupon.redeemCoupon (some "u1-x2-x3-x4-x5")
      (some "00000000-0000-1000-8000-00000000000a") 3
      "00000000-0000-1000-8000-00000000000b" dbRedeem).2.redeemed_coupons =
      dbRedeem.redeemed_coupons ++
        [⟨"00000000-0000-1000-8000-00000000000b",
          "00000000-0000-1000-8000-00000000000a", "u1-x2-x3-x4-x5",
          exCoupon.business_id, 3, false, none, false, none⟩] ∧
    (∀ a c n2 ni db2,
      (Coupon.redeemCoupon a c n2 ni db2).2.loyalty_points =
        db2.loyalty_points) :=
  redeemCoupon_no_balance_check dbRedeem "u1-x2-x3-x4-x5"
    "00000000-0000-1000-8000-00000000000a"
    "00000000-0000-1000-8000-00000000000b" 3 exCoupon (by decide) (by decide)
    (by decide)

theorem latestUnused_foldl_some (l : List QRCodeRow) (a : QRCodeRow) :
    (l.foldl (fun acc r =>
      match acc with
      | none => some r
      | some x => if x.created_at < r.created_at then some r else some x)
      (some a)).isSome = true := by
  induction l generalizing a with
  | nil => rfl
  | cons b t ih =>
    simp only [List.foldl_cons]
    by_cases h : a.created_at < b.created_at <;> simp [h, ih]

theorem latestUnused_none (rows : List QRCodeRow) (uid : String)
    (h : Qr.latestUnused rows uid = none) :
    rows.filter (fun r => r.user_id == uid && r.used == false) = [] := by
  cases hf : rows.filter (fun r => r.user_id == uid && r.used == false) with
  | nil => rfl
  | cons g gs =>
    exfalso
    unfold Qr.latestUnused at h
    rw [hf] at h
    simp only [List.foldl_cons] at h
    have := latestUnused_foldl_some gs g
    rw [h] at this
    simp at this

/-- C7: two immediate successive calls of the code issuer for the same
Client return the identical code and the second call leaves the store
exactly as the first left it: a pre-existing valid code is returned
unchanged, and a freshly minted one is found again rather than replaced. -/
theorem getQRCode_idempotent
    (db : DB) (uid : String) (t1 id1 t2 id2 : Nat) (u : AuthUser)
    (hfind : findUser db uid = some u)
    (hrole : u.role = "Client") :
    (Qr.getQRCode (some uid) t2 id2 (Qr.getQRCode (some uid) t1 id1 db).2).1 =
      (Qr.getQRCode (some uid) t1 id1 db).1 ∧
    (Qr.getQRCode (some uid) t2 id2 (Qr.getQRCode (some uid) t1 id1 db).2).2 =
      (Qr.getQRCode (some uid) t1 id1 db).2 := by
  cases hl : Qr.latestUnused db.qr_codes uid with
  | some q =>
    have h1 : Qr.getQRCode (some uid) t1 id1 db =
        (.ok ⟨q.id, q.qr_data, q.created_at⟩, db) := by
      unfold Qr.getQRCode
      simp [hfind, hrole, hl]
    have h2 : Qr.getQRCode (some uid) t2 id2 db =
        (.ok ⟨q.id, q.qr_data, q.created_at⟩, db) := by
      unfold Qr.getQRCode
      simp [hfind, hrole, hl]
    rw [h1, h2]
    exact ⟨rfl, rfl⟩
  | none =>
    have hfe := latestUnused_none db.qr_codes uid hl
    have h1 : Qr.getQRCode (some uid) t1 id1 db =
        (.ok ⟨id1, uid ++ "-" ++ toString t1, t1⟩,
          { db with qr_codes :=
              db.qr_codes ++ [⟨id1, uid, uid ++ "-" ++ toString t1, false, t1⟩] }) := by
      unfold Qr.getQRCode
      simp [hfind, hrole, hl]
    have hl2 : Qr.latestUnused
        (db.qr_codes ++ [⟨id1, uid, uid ++ "-" ++ toString t1, false, t1⟩]) uid =
        some ⟨id1, uid, uid ++ "-" ++ toString t1, false, t1⟩ := by
      unfold Qr.latestUnused
      rw [List.filter_append, hfe]
      simp
    have hfind2 : findUser
        { db with qr_codes :=
            db.qr_codes ++ [⟨id1, uid, uid ++ "-" ++ toString t1, false, t1⟩] }
        uid = some u := hfind
    have h2 : Qr.getQRCode (some uid) t2 id2
        { db with qr_codes :=
            db.qr_codes ++ [⟨id1, uid, uid ++ "-" ++ toString t1, false, t1⟩] } =
        (.ok ⟨id1, uid ++ "-" ++ toString t1, t1⟩,
          { db with qr_codes :=
              db.qr_codes ++ [⟨id1, uid, uid ++ "-" ++ toString t1, false, t1⟩] }) := by
      unfold Qr.getQRCode
      simp only [hfind2, hrole, hl2]
      simp
    rw [h1, h2]
    exact ⟨rfl, rfl⟩

/-- Witness for C7: two successive calls on the example store return the
same code (the most recent unused one) and the same store. -/
theorem getQRCode_idempotent_witness :
    (Qr.getQRCode (some "u1-x2-x3-x4-x5") 11 8
      (Qr.getQRCode (some "u1-x2-x3-x4-x5") 9 7 dbScenario).2).1 =
      (Qr.getQRCode (some "u1-x2-x3-x4-x5") 9 7 dbScenario).1 ∧
    (Qr.getQRCode (some "u1-x2-x3-x4-x5") 11 8
      (Qr.getQRCode (some "u1-x2-x3-x4-x5") 9 7 dbScenario).2).2 =
      (Qr.getQRCode (some "u1-x2-x3-x4-x5") 9 7 dbScenario).2 :=
  getQRCode_idempotent dbScenario "u1-x2-x3-x4-x5" 9 7 11 8 exCust (by decide)
    rfl

/-- C5 counterexample: the verification mutation of the scan handler is
not the claimed verified=false-filtered update.  On a store whose claim
is already verified, the mutation the code performs (markVerified, the
id-filtered unconditional UPDATE) still rewrites the row, while the
mutation the claim describes (Qr.markVerifiedFiltered) affects zero rows
and leaves the store unchanged; and in the interleaving where two
requests for the same unverified claim both pass the guarding read
before either writes, both updates go through (the second overwrites
verified_at), so there is no zero-affected-rows rejection signal. -/
theorem scanVerify_mechanism_counterexample :
    Qr.markVerified dbVerified "00000000-0000-1000-8000-00000000000b" 9 ≠
      dbVerified ∧
    (Qr.markVerifiedFiltered dbVerified "00000000-0000-1000-8000-00000000000b" 9).1 =
      0 ∧
    (Qr.markVerifiedFiltered dbVerified "00000000-0000-1000-8000-00000000000b" 9).2 =
      dbVerified ∧
    (single? (dbScanVerify.redeemed_coupons.filter
      (fun r => r.id == "00000000-0000-1000-8000-00000000000b" &&
        r.verified == false))).isSome = true ∧
    (Qr.markVerified
      (Qr.markVerified dbScanVerify "00000000-0000-1000-8000-00000000000b" 9)
      "00000000-0000-1000-8000-00000000000b" 10).redeemed_coupons =
      [{ exRc with verified := true, verified_at := some 10 }] := by
  decide

theorem markVerified_filter_none (db : DB) (d : String) (n : Nat) :
    (Qr.markVerified db d n).redeemed_coupons.filter
      (fun r => r.id == d && r.verified == false) = [] := by
  rw [List.filter_eq_nil_iff]
  intro r hr
  unfold Qr.markVerified at hr
  simp only [List.mem_map] at hr
  obtain ⟨r0, hr0, hrule⟩ := hr
  by_cases hid : (r0.id == d) = true
  · rw [if_pos hid] at hrule
    subst hrule
    simp
  · rw [if_neg (by simpa using hid)] at hrule
    subst hrule
    simp only [Bool.and_eq_true, beq_iff_eq]
    intro hcontra
    exact absurd (by simpa using hcontra.1) (by simpa using hid)

theorem markVerified_row_verified (db : DB) (d : String) (n : Nat) :
    ∀ r ∈ (Qr.markVerified db d n).redeemed_coupons,
      r.id = d → r.verified = true ∧ r.verified_at = some n := by
  intro r hr
  unfold Qr.markVerified at hr
  simp only [List.mem_map] at hr
  obtain ⟨r0, hr0, hrule⟩ := hr
  by_cases hid : (r0.id == d) = true
  · rw [if_pos hid] at hrule
    subst hrule
    exact fun _ => ⟨rfl, rfl⟩
  · rw [if_neg (by simpa using hid)] at hrule
    subst hrule
    intro hcontra
    exact absurd hcontra (by simpa using hid)

/-- C5 (amended): sequentially verifying the same redeemed-coupon id
twice through the scan endpoint succeeds exactly once — the first call
sets verified=true with verified_at, the second is rejected with the
already-verified conflict — but the rejection comes from the guarding
read filtered on verified=false, not from the mutation: the UPDATE
itself is filtered on the id alone, so no zero-affected-rows signal
exists and two interleaved verifications can both succeed. -/
theorem scanVerify_twice_exactly_once
    (db : DB) (sid d : String) (lg : Bool) (n1 n2 : Nat) (su : AuthUser)
    (rc : RedeemedCouponRow)
    (hfind : findUser db sid = some su)
    (hrole : su.role = "Staff" ∨ su.role = "Owner")
    (hd : d ≠ "")
    (hnoqr : ∀ r ∈ db.qr_codes, r.qr_data ≠ d)
    (hrc : db.redeemed_coupons.filter (fun r => r.id == d) = [rc])
    (hunv : rc.verified = false)
    (hbiz : su.business_id = some rc.business_id) :
    Qr.handleQRCode (some sid) (some d) none lg n1 db =
      (.ok (.couponVerified rc.coupon_id), Qr.markVerified db d n1) ∧
    (∀ r ∈ (Qr.markVerified db d n1).redeemed_coupons,
      r.id = d → r.verified = true ∧ r.verified_at = some n1) ∧
    Qr.handleQRCode (some sid) (some d) none lg n2 (Qr.markVerified db d n1) =
      (.error ⟨400, "Invalid or already verified coupon."⟩,
        Qr.markVerified db d n1) := by
  have hrole' : (su.role == "Staff" || su.role == "Owner") = true := by
    rcases hrole with h | h <;> simp [h]
  have hd' : (d == "") = false := by
    simpa using hd
  have hqf : db.qr_codes.filter (fun r => r.qr_data == d) = [] := by
    rw [List.filter_eq_nil_iff]
    intro r hr
    simpa using hnoqr r hr
  have hvf : db.redeemed_coupons.filter
      (fun r => r.id == d && r.verified == false) = [rc] := by
    have : db.redeemed_coupons.filter (fun r => r.id == d && r.verified == false) =
        (db.redeemed_coupons.filter (fun r => r.id == d)).filter
          (fun r => r.verified == false) := by
      rw [List.filter_filter]
      congr 1
      funext r
      rw [Bool.and_comm]
    rw [this, hrc]
    simp [List.filter, hunv]
  have hbiz' : ¬(su.business_id ≠ some rc.business_id) := by
    rw [hbiz]
    exact fun hcon => hcon rfl
  refine ⟨?_, markVerified_row_verified db d n1, ?_⟩
  · unfold Qr.handleQRCode
    simp only [hfind, hrole', hd', hqf, single?_nil, Option.isSome_none, hvf,
      single?_pair]
    simp [hbiz]
  · have hfind1 : findUser (Qr.markVerified db d n1) sid = some su := hfind
    have hqf1 : (Qr.markVerified db d n1).qr_codes.filter
        (fun r => r.qr_data == d) = [] := hqf
    unfold Qr.handleQRCode
    simp only [hfind1, hrole', hd', hqf1, single?_nil, Option.isSome_none,
      markVerified_filter_none db d n1]
    simp

/-- Witness for C5 (amended): sequential double verification of the
example claim succeeds once and is then rejected as already verified. -/
theorem scanVerify_twice_exactly_once_witness :
    Qr.handleQRCode (some "staff1")
      (some "00000000-0000-1000-8000-00000000000b") none true 9 dbScanVerify =
      (.ok (.couponVerified "00000000-0000-1000-8000-00000000000a"),
        Qr.markVerified dbScanVerify "00000000-0000-1000-8000-00000000000b" 9) ∧
    (∀ r ∈ (Qr.markVerified dbScanVerify
        "00000000-0000-1000-8000-00000000000b" 9).redeemed_coupons,
      r.id = "00000000-0000-1000-8000-00000000000b" →
        r.verified = true ∧ r.verified_at = some 9) ∧
    Qr.handleQRCode (some "staff1")
      (some "00000000-0000-1000-8000-00000000000b") none true 10
      (Qr.markVerified dbScanVerify "00000000-0000-1000-8000-00000000000b" 9) =
      (.error ⟨400, "Invalid or already verified coupon."⟩,
        Qr.markVerified dbScanVerify "00000000-0000-1000-8000-00000000000b" 9) :=
  scanVerify_twice_exactly_once dbScanVerify "staff1"
    "00000000-0000-1000-8000-00000000000b" true 9 10 exStaff exRc (by decide)
    (Or.inl rfl) (by decide) (by decide) (by decide) rfl (by decide)

/-- C8: when the best-effort StaffAction append fails after the balance
mutation (logOk=false), the award still completes: it returns the same
success response (awarded amount and new total) as a run whose log write
succeeds, the mutated balance persists identically in both runs, and
nothing is rolled back — only the audit trail misses its entry. -/
theorem award_log_failure_does_not_roll_back
    (db : DB) (sid d bid : String) (a : Int) (su cu : AuthUser)
    (hfind : findUser db sid = some su)
    (hrole : su.role = "Staff" ∨ su.role = "Owner")
    (hbid : su.business_id = some bid)
    (hd : d ≠ "")
    (ha : 0 < a)
    (hcust : findUser db (Loyalty.extractUserId d) = some cu) :
    (Loyalty.awardLoyaltyPoints (some sid) (some d) (some (.num a)) false db).1 =
      .ok ⟨a, (Loyalty.award_loyalty_points db (Loyalty.extractUserId d) bid a).1⟩ ∧
    (Loyalty.awardLoyaltyPoints (some sid) (some d) (some (.num a)) false db).1 =
      (Loyalty.awardLoyaltyPoints (some sid) (some d) (some (.num a)) true db).1 ∧
    (Loyalty.awardLoyaltyPoints (some sid) (some d) (some (.num a)) false db).2.loyalty_points =
      (Loyalty.award_loyalty_points db (Loyalty.extractUserId d) bid a).2.loyalty_points ∧
    (Loyalty.awardLoyaltyPoints (some sid) (some d) (some (.num a)) false db).2.loyalty_points =
      (Loyalty.awardLoyaltyPoints (some sid) (some d) (some (.num a)) true db).2.loyalty_points ∧
    (Loyalty.awardLoyaltyPoints (some sid) (some d) (some (.num a)) false db).2.staff_actions =
      db.staff_actions := by
  have hf := awardLoyaltyPoints_success db sid d bid a false su cu hfind hrole
    hbid hd ha hcust
  have ht := awardLoyaltyPoints_success db sid d bid a true su cu hfind hrole
    hbid hd ha hcust
  obtain ⟨hau, haall, haqr, harc, hacoup, hasa⟩ :=
    award_rpc_frame db (Loyalty.extractUserId d) bid a
  rw [hf, ht]
  exact ⟨rfl, rfl, rfl, rfl, hasa⟩

/-- Witness for C8: a concrete award whose staff-action write fails still
succeeds with the balance written. -/
theorem award_log_failure_witness :
    (Loyalty.awardLoyaltyPoints (some "staff1") (some "u1-x2-x3-x4-x5-1000")
      (some (.num 50)) false dbScenario).1 =
      .ok ⟨50, (Loyalty.award_loyalty_points dbScenario "u1-x2-x3-x4-x5" "b1" 50).1⟩ ∧
    (Loyalty.awardLoyaltyPoints (some "staff1") (some "u1-x2-x3-x4-x5-1000")
      (some (.num 50)) false dbScenario).1 =
      (Loyalty.awardLoyaltyPoints (some "staff1") (some "u1-x2-x3-x4-x5-1000")
        (some (.num 50)) true dbScenario).1 ∧
    (Loyalty.awardLoyaltyPoints (some "staff1") (some "u1-x2-x3-x4-x5-1000")
      (some (.num 50)) false dbScenario).2.loyalty_points =
      (Loyalty.award_loyalty_points dbScenario "u1-x2-x3-x4-x5" "b1" 50).2.loyalty_points ∧
    (Loyalty.awardLoyaltyPoints (some "staff1") (some "u1-x2-x3-x4-x5-1000")
      (some (.num 50)) false dbScenario).2.loyalty_points =
      (Loyalty.awardLoyaltyPoints (some "staff1") (some "u1-x2-x3-x4-x5-1000")
        (some (.num 50)) true dbScenario).2.loyalty_points ∧
    (Loyalty.awardLoyaltyPoints (some "staff1") (some "u1-x2-x3-x4-x5-1000")
      (some (.num 50)) false dbScenario).2.staff_actions =
      dbScenario.staff_actions :=
  award_log_failure_does_not_roll_back dbScenario "staff1"
    "u1-x2-x3-x4-x5-1000" "b1" 50 exStaff exCust (by decide) (Or.inl rfl)
    (by decide) (by decide) (by decide) (by decide)

theorem mem_map_ite {α : Type} (l : List α) (p : α → Bool) (f : α → α) (r : α)
    (hr : r ∈ l.map (fun x => if p x then f x else x)) :
    (∃ x ∈ l, p x = true ∧ r = f x) ∨ (r ∈ l ∧ p r = false) := by
  simp only [List.mem_map] at hr
  obtain ⟨x, hx, hrule⟩ := hr
  by_cases hp : p x = true
  · exact Or.inl ⟨x, hx, hp, by rw [← hrule, if_pos hp]⟩
  · rw [if_neg (by simpa using hp)] at hrule
    subst hrule
    exact Or.inr ⟨hx, by simpa using hp⟩

/-- C10: on the dedicated verify-coupon endpoint, when the staff belongs
to the business of an unused redeemed coupon and the owning user holds
at least points_required aggregate points, verification succeeds: it
returns the coupon with pointsDeducted = points_required and the new
balance, writes exactly points_required less into the (user, business)
balance (other rows untouched), marks the redeemed coupon used with
used_at, and appends a VERIFY_COUPON staff action — while customer
redemption (redeemCoupon) never touches a balance, so the deduction
happens at staff verification time, not at redemption time. -/
theorem verifyCoupon_deducts_at_verification
    (db : DB) (sid d : String) (now : Nat) (sd : AllUserRow)
    (rc : RedeemedCouponRow) (lp : LoyaltyPointsRow) (coupon : CouponRow)
    (hsu : Coupon.findAllUser db sid = some sd)
    (hrole : sd.role = "Staff")
    (hd : d ≠ "")
    (hp : Coupon.isUuid d = true)
    (hrc : single? (db.redeemed_coupons.filter
      (fun r => r.id == d && r.business_id == sd.business_id)) = some rc)
    (hnotused : rc.used = false)
    (hlp : single? (db.loyalty_points.filter
      (fun r => r.user_id == rc.user_id && r.business_id == sd.business_id)) =
      some lp)
    (hcoup : single? (db.coupons.filter (fun c => c.id == rc.coupon_id)) =
      some coupon)
    (hsuff : ¬(lp.points < coupon.points_required)) :
    (Coupon.verifyCoupon (some sid) (some d) true now db).1 =
      .ok ⟨coupon, coupon.points_required, lp.points - coupon.points_required⟩ ∧
    (∀ r ∈ (Coupon.verifyCoupon (some sid) (some d) true now db).2.loyalty_points,
      r.user_id = rc.user_id ∧ r.business_id = sd.business_id →
        r.points = lp.points - coupon.points_required) ∧
    (∀ r ∈ (Coupon.verifyCoupon (some sid) (some d) true now db).2.loyalty_points,
      ¬(r.user_id = rc.user_id ∧ r.business_id = sd.business_id) →
        r ∈ db.loyalty_points) ∧
    (∀ r ∈ (Coupon.verifyCoupon (some sid) (some d) true now db).2.redeemed_coupons,
      r.id = d → r.used = true ∧ r.used_at = some now) ∧
    (Coupon.verifyCoupon (some sid) (some d) true now db).2.staff_actions =
      db.staff_actions ++
        [⟨sid, "VERIFY_COUPON", sd.business_id, none, none, some rc.id,
          some coupon.name, some coupon.points_required⟩] ∧
    (∀ a c n2 ni db2,
      (Coupon.redeemCoupon a c n2 ni db2).2.loyalty_points =
        db2.loyalty_points) := by
  have hd' : (d == "") = false := by
    simpa using hd
  have hrole' : ¬(sd.role ≠ "Staff") := fun hcon => hcon hrole
  have heq : Coupon.verifyCoupon (some sid) (some d) true now db =
      (.ok ⟨coupon, coupon.points_required, lp.points - coupon.points_required⟩,
        { db with
            loyalty_points := db.loyalty_points.map
              (fun (r : LoyaltyPointsRow) =>
                if r.user_id == rc.user_id && r.business_id == sd.business_id then
                  { r with points := lp.points - coupon.points_required }
                else r),
            redeemed_coupons := db.redeemed_coupons.map
              (fun (r : RedeemedCouponRow) =>
                if r.id == d then { r with used := true, used_at := some now }
                else r),
            staff_actions := db.staff_actions ++
              [⟨sid, "VERIFY_COUPON", sd.business_id, none, none, some rc.id,
                some coupon.name, some coupon.points_required⟩] }) := by
    unfold Coupon.verifyCoupon
    simp only [hsu, strFalsy, hd', hp, if_true, hrc, hlp, hcoup]
    rw [if_neg hrole']
    simp only [Bool.false_eq_true, if_false, ite_false, hnotused]
    rw [if_neg hsuff]
    unfold Coupon.logVerification Coupon.markUsed Coupon.deductPoints
    simp
  rw [heq]
  refine ⟨rfl, ?_, ?_, ?_, rfl,
    fun a c n2 ni db2 => redeemCoupon_lp_frame a c n2 ni db2⟩
  · intro r hr hkey
    rcases mem_map_ite _ _ _ r hr with ⟨x, _, _, hform⟩ | ⟨_, hmiss⟩
    · rw [hform]
    · exact absurd hmiss (by simp [hkey.1, hkey.2])
  · intro r hr hkey
    rcases mem_map_ite _ _ _ r hr with ⟨x, hx, hhit, hform⟩ | ⟨hmem, _⟩
    · exfalso
      apply hkey
      have : r.user_id = x.user_id ∧ r.business_id = x.business_id := by
        rw [hform]
        exact ⟨rfl, rfl⟩
      simp only [Bool.and_eq_true, beq_iff_eq] at hhit
      exact ⟨this.1.trans hhit.1, this.2.trans hhit.2⟩
    · exact hmem
  · intro r hr
    rcases mem_map_ite _ _ _ r hr with ⟨x, _, _, hform⟩ | ⟨_, hmiss⟩
    · rw [hform]
      exact fun _ => ⟨rfl, rfl⟩
    · intro hid
      exact absurd hmiss (by simp [hid])

/-- Witness for C10: verifying the example claim with balance 120 against
the 100-point coupon deducts 100 and marks the claim used. -/
theorem verifyCoupon_deducts_witness :
    (Coupon.verifyCoupon (some "staff1")
      (some "00000000-0000-1000-8000-00000000000b") true 9 dbVerify).1 =
      .ok ⟨exCoupon, exCoupon.points_required,
        (120 : Int) - exCoupon.points_required⟩ ∧
    (∀ r ∈ (Coupon.verifyCoupon (some "staff1")
        (some "00000000-0000-1000-8000-00000000000b") true 9 dbVerify).2.loyalty_points,
      r.user_id = exRc.user_id ∧ r.business_id = "b1" →
        r.points = (120 : Int) - exCoupon.points_required) ∧
    (∀ r ∈ (Coupon.verifyCoupon (some "staff1")
        (some "00000000-0000-1000-8000-00000000000b") true 9 dbVerify).2.loyalty_points,
      ¬(r.user_id = exRc.user_id ∧ r.business_id = "b1") →
        r ∈ dbVerify.loyalty_points) ∧
    (∀ r ∈ (Coupon.verifyCoupon (some "staff1")
        (some "00000000-0000-1000-8000-00000000000b") true 9 dbVerify).2.redeemed_coupons,
      r.id = "00000000-0000-1000-8000-00000000000b" →
        r.used = true ∧ r.used_at = some 9) ∧
    (Coupon.verifyCoupon (some "staff1")
      (some "00000000-0000-1000-8000-00000000000b") true 9 dbVerify).2.staff_actions =
      dbVerify.staff_actions ++
        [⟨"staff1", "VERIFY_COUPON", "b1", none, none, some exRc.id,
          some exCoupon.name, some exCoupon.points_required⟩] ∧
    (∀ a c n2 ni db2,
      (Coupon.redeemCoupon a c n2 ni db2).2.loyalty_points =
        db2.loyalty_points) :=
  verifyCoupon_deducts_at_verification dbVerify "staff1"
    "00000000-0000-1000-8000-00000000000b" 9 ⟨"staff1", "b1", "Staff"⟩ exRc
    ⟨"u1-x2-x3-x4-x5", "b1", 120⟩ exCoupon (by decide) rfl (by decide)
    (by decide) (by decide) (by decide) (by decide) (by decide) (by decide)

theorem dispatch_coupons_frame (db : Dispatch.DDB) (sid : String)
    (q : Option String) (am : Option JNum) (cp : Option String) (now : Nat)
    (su : AuthUser) (b : String) (biz : Dispatch.BusinessRow)
    (hfind : db.users.find? (fun u => u.id == sid) = some su)
    (hbid : su.business_id = some b)
    (hbiz : single? (db.businesses.filter (fun x => x.id == b)) = some biz)
    (hmode : biz.loyalty_type = "COUPONS") :
    (Dispatch.handleQRCode (some sid) q am cp now db).2.user_loyalty_points =
      db.user_loyalty_points ∧
    (Dispatch.handleQRCode (some sid) q am cp now db).2.loyalty_points =
      db.loyalty_points ∧
    (Dispatch.handleQRCode (some sid) q am cp now db).2.staff_actions =
      db.staff_actions := by
  have hm : (biz.loyalty_type == "COUPONS") = true := by simp [hmode]
  unfold Dispatch.handleQRCode
  simp only [hfind, hbid]
  split
  · exact ⟨rfl, rfl, rfl⟩
  · split
    · simp only [hbiz, hm, if_true]
      split
      · exact ⟨rfl, rfl, rfl⟩
      · split
        · exact ⟨rfl, rfl, rfl⟩
        · split
          · exact ⟨rfl, rfl, rfl⟩
          · split
            · exact ⟨rfl, rfl, rfl⟩
            · split <;> exact ⟨rfl, rfl, rfl⟩
    · exact ⟨rfl, rfl, rfl⟩

theorem dispatch_aggregate_frame (db : Dispatch.DDB) (sid : String)
    (q : Option String) (am : Option JNum) (cp : Option String) (now : Nat)
    (su : AuthUser) (b : String) (biz : Dispatch.BusinessRow)
    (hfind : db.users.find? (fun u => u.id == sid) = some su)
    (hbid : su.business_id = some b)
    (hbiz : single? (db.businesses.filter (fun x => x.id == b)) = some biz)
    (hmode : biz.loyalty_type ≠ "COUPONS") :
    (Dispatch.handleQRCode (some sid) q am cp now db).2.coupon_specific_points =
      db.coupon_specific_points := by
  have hm : (biz.loyalty_type == "COUPONS") = false := by simpa using hmode
  unfold Dispatch.handleQRCode
  simp only [hfind, hbid]
  split
  · rfl
  · split
    · simp only [hbiz, hm, Bool.false_eq_true, if_false, ite_false]
      split
      · rfl
      · split
        · rfl
        · split <;> rfl
    · rfl

theorem dispatch_coupons_success (db : Dispatch.DDB) (sid d cid : String)
    (n : Int) (now : Nat) (su : AuthUser) (b : String)
    (biz : Dispatch.BusinessRow) (qrow : QRCodeRow)
    (hfind : db.users.find? (fun u => u.id == sid) = some su)
    (hbid : su.business_id = some b)
    (hbiz : single? (db.businesses.filter (fun x => x.id == b)) = some biz)
    (hmode : biz.loyalty_type = "COUPONS")
    (hd : d ≠ "") (hn : 0 < n) (hcid : cid ≠ "")
    (hqr : single? (db.qr_codes.filter
      (fun r => r.qr_data == d && r.used == false)) = some qrow)
    (hcsp : db.coupon_specific_points.filter
      (fun r => r.user_id == qrow.user_id && r.business_id == b &&
        r.coupon_id == cid) = []) :
    (Dispatch.handleQRCode (some sid) (some d) (some (.num n)) (some cid)
      now db).1 = .ok n ∧
    (Dispatch.handleQRCode (some sid) (some d) (some (.num n)) (some cid)
      now db).2.coupon_specific_points =
      db.coupon_specific_points ++ [⟨qrow.user_id, b, cid, n, now⟩] := by
  have hm : (biz.loyalty_type == "COUPONS") = true := by simp [hmode]
  have hd' : (d == "") = false := by simpa using hd
  have hn0 : (n == 0) = false := by simpa using hn.ne'
  have hle : decide (n ≤ 0) = false := by simp [not_le.mpr hn]
  have hcid' : (cid == "") = false := by simpa using hcid
  unfold Dispatch.handleQRCode
  simp only [hfind, hbid, strFalsy, jnumFalsy, hd', hn0, hle, Bool.or_self,
    Bool.or_false, Bool.false_or, Bool.false_eq_true, if_false, ite_false,
    hbiz, hm, if_true, hcid', hqr, hcsp, Dispatch.maybe?]
  exact ⟨trivial, trivial⟩

theorem dispatch_aggregate_success (db : Dispatch.DDB) (sid d : String)
    (cp : Option String) (n : Int) (now : Nat) (su : AuthUser) (b : String)
    (biz : Dispatch.BusinessRow) (qrow : QRCodeRow)
    (hfind : db.users.find? (fun u => u.id == sid) = some su)
    (hbid : su.business_id = some b)
    (hbiz : single? (db.businesses.filter (fun x => x.id == b)) = some biz)
    (hmode : biz.loyalty_type ≠ "COUPONS")
    (hd : d ≠ "") (hn : 0 < n)
    (hqr : single? (db.qr_codes.filter
      (fun r => r.qr_data == d && r.used == false)) = some qrow)
    (hulp : db.user_loyalty_points.filter
      (fun r => r.user_id == qrow.user_id && r.business_id == b) = []) :
    (Dispatch.handleQRCode (some sid) (some d) (some (.num n)) cp now db).1 =
      .ok n ∧
    (Dispatch.handleQRCode (some sid) (some d) (some (.num n)) cp
      now db).2.user_loyalty_points =
      db.user_loyalty_points ++ [⟨qrow.user_id, b, n, now⟩] := by
  have hm : (biz.loyalty_type == "COUPONS") = false := by simpa using hmode
  have hd' : (d == "") = false := by simpa using hd
  have hn0 : (n == 0) = false := by simpa using hn.ne'
  have hle : decide (n ≤ 0) = false := by simp [not_le.mpr hn]
  unfold Dispatch.handleQRCode
  simp only [hfind, hbid, strFalsy, jnumFalsy, hd', hn0, hle, Bool.or_self,
    Bool.or_false, Bool.false_or, Bool.false_eq_true, if_false, ite_false,
    hbiz, hm, hqr, hulp, Dispatch.maybe?]
  constructor <;> simp

/-- C9: the dispatching scan handler routes every award to exactly one
balance entity according to the loyalty_type of the staff business.  In
COUPONS (per-coupon stamp) mode the aggregate running totals, the
loyalty_points transaction log and the staff actions are untouched on
every path, and a successful award writes the (user, business, coupon)
stamp counter; in every other (aggregate) mode the per-coupon counters
are untouched on every path and a successful award writes the
(user, business) running total — the two modes never share a counter. -/
theorem ledger_dispatch_never_shares_counter (db : Dispatch.DDB)
    (sid : String) (su : AuthUser) (b : String) (biz : Dispatch.BusinessRow)
    (hfind : db.users.find? (fun u => u.id == sid) = some su)
    (hbid : su.business_id = some b)
    (hbiz : single? (db.businesses.filter (fun x => x.id == b)) = some biz) :
    (∀ q am cp now, biz.loyalty_type = "COUPONS" →
      (Dispatch.handleQRCode (some sid) q am cp now db).2.user_loyalty_points =
        db.user_loyalty_points ∧
      (Dispatch.handleQRCode (some sid) q am cp now db).2.loyalty_points =
        db.loyalty_points ∧
      (Dispatch.handleQRCode (some sid) q am cp now db).2.staff_actions =
        db.staff_actions) ∧
    (∀ q am cp now, biz.loyalty_type ≠ "COUPONS" →
      (Dispatch.handleQRCode (some sid) q am cp now db).2.coupon_specific_points =
        db.coupon_specific_points) ∧
    (∀ d cid n now qrow, biz.loyalty_type = "COUPONS" → d ≠ "" → 0 < n →
      cid ≠ "" →
      single? (db.qr_codes.filter
        (fun r => r.qr_data == d && r.used == false)) = some qrow →
      db.coupon_specific_points.filter
        (fun r => r.user_id == qrow.user_id && r.business_id == b &&
          r.coupon_id == cid) = [] →
      (Dispatch.handleQRCode (some sid) (some d) (some (.num n)) (some cid)
        now db).1 = .ok n ∧
      (Dispatch.handleQRCode (some sid) (some d) (some (.num n)) (some cid)
        now db).2.coupon_specific_points =
        db.coupon_specific_points ++ [⟨qrow.user_id, b, cid, n, now⟩]) ∧
    (∀ d cp n now qrow, biz.loyalty_type ≠ "COUPONS" → d ≠ "" → 0 < n →
      single? (db.qr_codes.filter
        (fun r => r.qr_data == d && r.used == false)) = some qrow →
      db.user_loyalty_points.filter
        (fun r => r.user_id == qrow.user_id && r.business_id == b) = [] →
      (Dispatch.handleQRCode (some sid) (some d) (some (.num n)) cp
        now db).1 = .ok n ∧
      (Dispatch.handleQRCode (some sid) (some d) (some (.num n)) cp
        now db).2.user_loyalty_points =
        db.user_loyalty_points ++ [⟨qrow.user_id, b, n, now⟩]) :=
  ⟨fun q am cp now hm =>
      dispatch_coupons_frame db sid q am cp now su b biz hfind hbid hbiz hm,
    fun q am cp now hm =>
      dispatch_aggregate_frame db sid q am cp now su b biz hfind hbid hbiz hm,
    fun d cid n now qrow hm hd hn hcid hqr hcsp =>
      dispatch_coupons_success db sid d cid n now su b biz qrow hfind hbid
        hbiz hm hd hn hcid hqr hcsp,
    fun d cp n now qrow hm hd hn hqr hulp =>
      dispatch_aggregate_success db sid d cp n now su b biz qrow hfind hbid
        hbiz hm hd hn hqr hulp⟩

/-- Witness for C9: on the COUPONS-mode store an award writes only the
per-coupon counter; on the aggregate-mode store it writes only the
running total. -/
theorem ledger_dispatch_witness :
    ((Dispatch.handleQRCode (some "staff1") (some "u9-1000") (some (.num 5))
      (some "cA") 4 dbDispatchCoupons).1 = .ok 5 ∧
    (Dispatch.handleQRCode (some "staff1") (some "u9-1000") (some (.num 5))
      (some "cA") 4 dbDispatchCoupons).2.coupon_specific_points =
      dbDispatchCoupons.coupon_specific_points ++ [⟨"u9", "b1", "cA", 5, 4⟩] ∧
    (Dispatch.handleQRCode (some "staff1") (some "u9-1000") (some (.num 5))
      (some "cA") 4 dbDispatchCoupons).2.user_loyalty_points =
      dbDispatchCoupons.user_loyalty_points) ∧
    ((Dispatch.handleQRCode (some "staff1") (some "u9-1000") (some (.num 5))
      none 4 dbDispatchPoints).1 = .ok 5 ∧
    (Dispatch.handleQRCode (some "staff1") (some "u9-1000") (some (.num 5))
      none 4 dbDispatchPoints).2.user_loyalty_points =
      dbDispatchPoints.user_loyalty_points ++ [⟨"u9", "b1", 5, 4⟩] ∧
    (Dispatch.handleQRCode (some "staff1") (some "u9-1000") (some (.num 5))
      none 4 dbDispatchPoints).2.coupon_specific_points =
      dbDispatchPoints.coupon_specific_points) := by
  have h1 := ledger_dispatch_never_shares_counter dbDispatchCoupons "staff1"
    exStaff "b1" ⟨"b1", "COUPONS"⟩ (by decide) rfl (by decide)
  have h2 := ledger_dispatch_never_shares_counter dbDispatchPoints "staff1"
    exStaff "b1" ⟨"b1", "POINTS"⟩ (by decide) rfl (by decide)
  obtain ⟨hc1, hc2⟩ := h1.2.2.1 "u9-1000" "cA" 5 4 exQr9 rfl (by decide)
    (by decide) (by decide) (by decide) (by decide)
  obtain ⟨ha1, ha2⟩ := h2.2.2.2 "u9-1000" none 5 4 exQr9 (by decide)
    (by decide) (by decide) (by decide) (by decide)
  have hcf := (h1.1 (some "u9-1000") (some (.num 5)) (some "cA") 4 rfl).1
  have haf := h2.2.1 (some "u9-1000") (some (.num 5)) none 4 (by decide)
  exact ⟨⟨hc1, hc2, hcf⟩, ⟨ha1, ha2, haf⟩⟩

theorem single?_mem {α : Type} (l : List α) (x : α) (h : single? l = some x) :
    x ∈ l := by
  match l, h with
  | [y], h =>
    simp only [single?, Option.some.injEq] at h
    simp [h]

theorem maybe?_mem {α : Type} (l : List α) (x : α)
    (h : Dispatch.maybe? l = .ok (some x)) : x ∈ l := by
  match l, h with
  | [y], h =>
    simp only [Dispatch.maybe?, Except.ok.injEq, Option.some.injEq] at h
    simp [h]

theorem award_rpc_nonneg (db : DB) (u b : String) (n : Int)
    (h : balancesNonneg db) (hn : 0 ≤ n) :
    balancesNonneg (Loyalty.award_loyalty_points db u b n).2 := by
  unfold Loyalty.award_loyalty_points
  split
  · rename_i r hr'
    intro x hx
    simp only [List.mem_map] at hx
    obtain ⟨x0, hx0, hrule⟩ := hx
    by_cases hp : (x0.user_id == u && x0.business_id == b) = true
    · rw [if_pos hp] at hrule
      rw [← hrule]
      have hrm : r ∈ db.loyalty_points := List.mem_of_find?_eq_some hr'
      have := h r hrm
      simp only []
      omega
    · rw [if_neg (by simpa using hp)] at hrule
      subst hrule
      exact h x0 hx0
  · intro x hx
    rcases List.mem_append.mp hx with hmem | hnew
    · exact h x hmem
    · simp only [List.mem_singleton] at hnew
      subst hnew
      exact hn

theorem awardLoyaltyPoints_nonneg (a q : Option String) (am : Option JNum)
    (lg : Bool) (db : DB) (h : balancesNonneg db) :
    balancesNonneg (Loyalty.awardLoyaltyPoints a q am lg db).2 := by
  unfold Loyalty.awardLoyaltyPoints
  split
  · exact h
  · split
    · exact h
    · split
      · exact h
      · split
        · exact h
        · rename_i hvalid
          split
          · rename_i d n
            split
            · cases hfu : findUser db (Loyalty.extractUserId d) <;>
                simp only [hfu] <;> exact h
            · rename_i bid hbeq
              cases hfu : findUser db (Loyalty.extractUserId d) with
              | none =>
                simp only [hfu]
                exact h
              | some cu =>
                simp only [hfu]
                have hn : 0 ≤ n := by
                  simp [strFalsy, jnumFalsy, JNum.isNaN,
                    JNum.invalidAmount] at hvalid
                  omega
                cases lg <;>
                  simpa [balancesNonneg] using
                    award_rpc_nonneg db (Loyalty.extractUserId d) bid n h hn
          · exact h

theorem except_map_isOk {e a b : Type} (f : a → b) (x : Except e a) :
    (x.map f).isOk = x.isOk := by
  cases x <;> rfl

theorem awardLoyaltyPoints_err_lp (a q : Option String) (am : Option JNum)
    (lg : Bool) (db : DB) :
    (Loyalty.awardLoyaltyPoints a q am lg db).1.isOk = false →
    (Loyalty.awardLoyaltyPoints a q am lg db).2.loyalty_points =
      db.loyalty_points := by
  unfold Loyalty.awardLoyaltyPoints
  split
  · exact fun _ => rfl
  · split
    · exact fun _ => rfl
    · split
      · exact fun _ => rfl
      · split
        · exact fun _ => rfl
        · rename_i hvalid
          split
          · rename_i d n
            split
            · cases hfu : findUser db (Loyalty.extractUserId d) <;>
                simp only [hfu] <;> exact fun _ => trivial
            · rename_i bid hbeq
              cases hfu : findUser db (Loyalty.extractUserId d) with
              | none =>
                simp only [hfu]
                exact fun _ => trivial
              | some cu =>
                simp only [hfu]
                intro hcon
                simp [Except.isOk, Except.toBool] at hcon
          · exact fun _ => rfl

theorem handleQRCode_nonneg (a q : Option String) (am : Option JNum)
    (lg : Bool) (now : Nat) (db : DB) (h : balancesNonneg db) :
    balancesNonneg (Qr.handleQRCode a q am lg now db).2 := by
  unfold Qr.handleQRCode
  split
  · exact h
  · rename_i sid
    split
    · exact h
    · split
      · exact h
      · split
        · exact h
        · rename_i d
          split
          · exact h
          · split
            · rename_i amt
              split
              · exact h
              · split
                rename_i claimed db1 hpair
                have hdb1 : db1.loyalty_points = db.loyalty_points :=
                  (congrArg (fun p => p.2.loyalty_points) hpair).symm
                have h1 : balancesNonneg db1 := by
                  intro x hx
                  rw [hdb1] at hx
                  exact h x hx
                split
                · exact h1
                · split
                  · exact h1
                  · split
                    rename_i res db2 hres
                    have hb := awardLoyaltyPoints_nonneg (some sid) (some d)
                      (some amt) lg db1 h1
                    rw [hres] at hb
                    exact hb
            · split
              · exact h
              · split
                · exact h
                · split
                  · exact h
                  · exact h

theorem handleQRCode_err_lp (a q : Option String) (am : Option JNum)
    (lg : Bool) (now : Nat) (db : DB) :
    (Qr.handleQRCode a q am lg now db).1.isOk = false →
    (Qr.handleQRCode a q am lg now db).2.loyalty_points =
      db.loyalty_points := by
  unfold Qr.handleQRCode
  split
  · exact fun _ => rfl
  · rename_i sid
    split
    · exact fun _ => rfl
    · split
      · exact fun _ => rfl
      · split
        · exact fun _ => rfl
        · rename_i d
          split
          · exact fun _ => rfl
          · split
            · rename_i amt
              split
              · exact fun _ => rfl
              · split
                rename_i claimed db1 hpair
                have hdb1 : db1.loyalty_points = db.loyalty_points :=
                  (congrArg (fun p => p.2.loyalty_points) hpair).symm
                split
                · exact fun _ => hdb1
                · split
                  · exact fun _ => hdb1
                  · split
                    rename_i res db2 hres
                    intro hcon
                    rw [except_map_isOk] at hcon
                    have h3 : (Loyalty.awardLoyaltyPoints (some sid) (some d)
                        (some amt) lg db1).1.isOk = false := by
                      rw [hres]
                      exact hcon
                    have h4 := awardLoyaltyPoints_err_lp (some sid) (some d)
                      (some amt) lg db1 h3
                    rw [hres] at h4
                    exact h4.trans hdb1
            · split
              · exact fun _ => rfl
              · split
                · exact fun _ => rfl
                · split
                  · exact fun _ => rfl
                  · intro hcon
                    simp [Except.isOk, Except.toBool] at hcon

theorem verifyCoupon_err_frame (a q : Option String) (lg : Bool) (now : Nat)
    (db : DB) :
    (Coupon.verifyCoupon a q lg now db).1.isOk = false →
    (Coupon.verifyCoupon a q lg now db).2 = db := by
  unfold Coupon.verifyCoupon
  repeat' split
  all_goals intro hcon
  all_goals first
    | rfl
    | simp [Except.isOk, Except.toBool] at hcon

theorem verifyCoupon_nonneg (a q : Option String) (lg : Bool) (now : Nat)
    (db : DB) (h : balancesNonneg db) :
    balancesNonneg (Coupon.verifyCoupon a q lg now db).2 := by
  unfold Coupon.verifyCoupon
  split
  · exact h
  · rename_i sid
    split
    · exact h
    · rename_i sd hsd
      split
      · exact h
      · split
        · exact h
        · split
          · exact h
          · split
            · exact h
            · rename_i rcId
              split
              · exact h
              · rename_i rc hrc
                split
                · exact h
                · split
                  · exact h
                  · rename_i lp hlp
                    split
                    · exact h
                    · rename_i coupon hcoup
                      split
                      · exact h
                      · rename_i hlt
                        cases lg
                        · intro x hx
                          rcases mem_map_ite db.loyalty_points
                              (fun r => r.user_id == rc.user_id &&
                                r.business_id == sd.business_id)
                              (fun r =>
                                { r with points :=
                                    lp.points - coupon.points_required })
                              x hx with ⟨x0, hx0, hp2, hform⟩ | ⟨hmem, _⟩
                          · rw [hform]
                            show 0 ≤ lp.points - coupon.points_required
                            omega
                          · exact h x hmem
                        · intro x hx
                          rcases mem_map_ite db.loyalty_points
                              (fun r => r.user_id == rc.user_id &&
                                r.business_id == sd.business_id)
                              (fun r =>
                                { r with points :=
                                    lp.points - coupon.points_required })
                              x hx with ⟨x0, hx0, hp2, hform⟩ | ⟨hmem, _⟩
                          · rw [hform]
                            show 0 ≤ lp.points - coupon.points_required
                            omega
                          · exact h x hmem

theorem dispatch_nonneg (a q : Option String) (am : Option JNum)
    (cp : Option String) (now : Nat) (db : Dispatch.DDB)
    (h : dispatchBalancesNonneg db) :
    dispatchBalancesNonneg (Dispatch.handleQRCode a q am cp now db).2 := by
  obtain ⟨hu, hc⟩ := h
  unfold Dispatch.handleQRCode
  split
  · exact ⟨hu, hc⟩
  · split
    · exact ⟨hu, hc⟩
    · split
      · exact ⟨hu, hc⟩
      · rename_i b hb
        split
        · exact ⟨hu, hc⟩
        · rename_i hvalid
          split
          · rename_i d n
            have hn : 0 < n := by
              simp [strFalsy, jnumFalsy] at hvalid
              omega
            split
            · exact ⟨hu, hc⟩
            · rename_i biz hbiz
              split
              · split
                · exact ⟨hu, hc⟩
                · split
                  · exact ⟨hu, hc⟩
                  · rename_i cid hcf
                    split
                    · exact ⟨hu, hc⟩
                    · rename_i qrow hqrow
                      split
                      · exact ⟨hu, hc⟩
                      · rename_i existingPoints hmay
                        split
                        · rename_i ep
                          refine ⟨hu, ?_⟩
                          intro x hx
                          rcases mem_map_ite db.coupon_specific_points
                              (fun r => r.user_id == qrow.user_id &&
                                r.business_id == b && r.coupon_id == cid)
                              (fun r => { r with points := ep.points + n, last_updated := now })
                              x hx with ⟨x0, hx0, hp2, hform⟩ | ⟨hmem, _⟩
                          · rw [hform]
                            show 0 ≤ ep.points + n
                            have hmem2 : ep ∈ db.coupon_specific_points :=
                              List.mem_of_mem_filter (maybe?_mem _ ep hmay)
                            have := hc ep hmem2
                            omega
                          · exact hc x hmem
                        · refine ⟨hu, ?_⟩
                          intro x hx
                          rcases List.mem_append.mp hx with hmem | hnew
                          · exact hc x hmem
                          · simp only [List.mem_singleton] at hnew
                            subst hnew
                            exact le_of_lt hn
              · split
                · exact ⟨hu, hc⟩
                · rename_i qrow hqrow
                  split
                  · exact ⟨hu, hc⟩
                  · rename_i existingPoints hmay
                    split
                    · rename_i ep
                      refine ⟨?_, hc⟩
                      intro x hx
                      rcases mem_map_ite db.user_loyalty_points
                          (fun r => r.user_id == qrow.user_id &&
                            r.business_id == b)
                          (fun r => { r with total_points := ep.total_points + n, last_updated := now })
                          x hx with ⟨x0, hx0, hp2, hform⟩ | ⟨hmem, _⟩
                      · rw [hform]
                        show 0 ≤ ep.total_points + n
                        have hmem2 : ep ∈ db.user_loyalty_points :=
                          List.mem_of_mem_filter (maybe?_mem _ ep hmay)
                        have := hu ep hmem2
                        omega
                      · exact hu x hmem
                    · refine ⟨?_, hc⟩
                      intro x hx
                      rcases List.mem_append.mp hx with hmem | hnew
                      · exact hu x hmem
                      · simp only [List.mem_singleton] at hnew
                        subst hnew
                        show 0 ≤ 0 + n
                        omega
          · exact ⟨hu, hc⟩

/-- C4: starting from a store whose balances are all nonnegative, no
operation of the core — scan (award or verification), direct award,
customer redemption, staff verification — ever drives a point balance
negative, and every rejected operation leaves the balance table exactly
as it was; the dispatching revision likewise preserves nonnegativity of
both the aggregate running totals and the per-coupon stamp counters. -/
theorem balance_never_negative (op : Op) (db : DB) (h : balancesNonneg db) :
    balancesNonneg (step op db).2 ∧
    ((step op db).1 = false →
      (step op db).2.loyalty_points = db.loyalty_points) ∧
    (∀ (ddb : Dispatch.DDB) a q am cp now, dispatchBalancesNonneg ddb →
      dispatchBalancesNonneg (Dispatch.handleQRCode a q am cp now ddb).2) := by
  refine ⟨?_, ?_, fun ddb a q am cp now hd => dispatch_nonneg a q am cp now ddb hd⟩
  · cases op with
    | scan a q am lg now =>
      simp only [step]
      exact handleQRCode_nonneg a q am lg now db h
    | award a q am lg =>
      simp only [step]
      exact awardLoyaltyPoints_nonneg a q am lg db h
    | redeem a c now ni =>
      simp only [step]
      intro x hx
      rw [redeemCoupon_lp_frame a c now ni db] at hx
      exact h x hx
    | verify a q lg now =>
      simp only [step]
      exact verifyCoupon_nonneg a q lg now db h
  · cases op with
    | scan a q am lg now =>
      simp only [step]
      intro hf
      exact handleQRCode_err_lp a q am lg now db hf
    | award a q am lg =>
      simp only [step]
      intro hf
      exact awardLoyaltyPoints_err_lp a q am lg db hf
    | redeem a c now ni =>
      simp only [step]
      intro _
      exact redeemCoupon_lp_frame a c now ni db
    | verify a q lg now =>
      simp only [step]
      intro hf
      rw [verifyCoupon_err_frame a q lg now db hf]

/-- Witness for C4: a verification attempt against an insufficient
balance (80 against 100) is rejected and leaves the nonnegative balance
table unchanged. -/
theorem balance_never_negative_witness :
    balancesNonneg dbRedeem ∧
    (balancesNonneg (step (.verify (some "staff1")
      (some "00000000-0000-1000-8000-00000000000c") true 9) dbRedeem).2 ∧
    ((step (.verify (some "staff1")
        (some "00000000-0000-1000-8000-00000000000c") true 9) dbRedeem).1 =
        false →
      (step (.verify (some "staff1")
        (some "00000000-0000-1000-8000-00000000000c") true 9)
        dbRedeem).2.loyalty_points = dbRedeem.loyalty_points) ∧
    (∀ (ddb : Dispatch.DDB) a q am cp now, dispatchBalancesNonneg ddb →
      dispatchBalancesNonneg (Dispatch.handleQRCode a q am cp now ddb).2)) :=
  ⟨by unfold balancesNonneg; decide,
    balance_never_negative
      (.verify (some "staff1") (some "00000000-0000-1000-8000-00000000000c")
        true 9)
      dbRedeem (by unfold balancesNonneg; decide)⟩
